import Mathlib

/-!
Shallow embedding of the SmartThingsDIY arduino-uno-aws-irrigation-system
edge decision-and-safety-control engine.

Sources embedded here:
* `lib/LocalMLEngine/` — `LocalMLEngine.cpp`, `LookupTable.cpp`,
  `DecisionTree.cpp` (the file shipped alongside the headers),
  and the `AnomalyDetector` implementation shipped with
  `edge-ai/arduino-ml/src/` (identical class layout to
  `lib/LocalMLEngine/AnomalyDetector.h`).
* `src/main.cpp` — pump state machine, health supervision, command surface.

Modelling conventions:
* Arduino `float`/`double` arithmetic is modelled exactly over `ℚ` wherever
  the source only adds, multiplies, divides and compares; `sqrt` and `tanh`
  (from the anomaly scorer) are modelled with the exact real functions
  `Real.sqrt` / `Real.tanh`, so anomaly scores live in `ℝ`.
  None of the claims below hinges on float rounding.
* `unsigned long` (32-bit on the AVR target) subtraction `a - b` is modelled
  by `usub32`, i.e. subtraction mod 2^32, matching C unsigned wraparound.
* `millis()` is passed in explicitly as a `now : Nat` argument; the several
  `millis()` reads inside one C function are modelled as the same instant.
* Serial printing, `digitalWrite` and `delay` have no modelled effect beyond
  the tracked `relayOn` flag of each pump (LOW = on for the active-low relay).
-/

/-- 32-bit unsigned subtraction `a - b` as performed on `unsigned long`. -/
def usub32 (a b : Nat) : Nat :=
  (a + (2 ^ 32 - b % 2 ^ 32)) % 2 ^ 32

theorem usub32_eq (a b : Nat) (hba : b ≤ a) (ha : a < 2 ^ 32) :
    usub32 a b = a - b := by
  unfold usub32
  omega

/-- `WaterAmount` enum from `PlantTypes.h` (NO_WATER=0, LOW=1, MEDIUM=2, HIGH=3). -/
inductive WaterAmount
  | NO_WATER
  | LOW_WATER
  | MEDIUM_WATER
  | HIGH_WATER
deriving DecidableEq

/-- The integer value of the enum constant. -/
def WaterAmount.val : WaterAmount → Nat
  | .NO_WATER => 0
  | .LOW_WATER => 1
  | .MEDIUM_WATER => 2
  | .HIGH_WATER => 3

/-- `SensorData` struct of `LocalMLEngine.h`: four analog channels, hours since
last watering, and the per-sensor plant configuration.  Plant types and growth
stages are the C enum values (`TOMATO = 0`, …; `SEEDLING = 0`, `VEGETATIVE = 1`, …). -/
structure SensorData where
  moisture : ℚ
  temperature : ℚ
  humidity : ℚ
  lightLevel : ℚ
  lastWatered : Nat
  plantType : Nat
  growthStage : Nat
deriving DecidableEq

/-- Default-constructed `SensorData()`. -/
def SensorData.default : SensorData :=
  { moisture := 0, temperature := 25, humidity := 50, lightLevel := 500,
    lastWatered := 0, plantType := 0, growthStage := 1 }

/-- Channel selector: the four statistics channels of the `AnomalyDetector`
(moisture, temperature, humidity, light). -/
def chan : Fin 4 → SensorData → ℚ
  | 0, d => d.moisture
  | 1, d => d.temperature
  | 2, d => d.humidity
  | 3, d => d.lightLevel

/-- `AnomalyDetector` state: the circular buffer `sensorHistory[24]`
(`ANOMALY_BUFFER_SIZE = 24`), its write index and its fill level.
The derived `SensorStats` fields are recomputed from the buffer at each
claim-relevant read (the source calls `updateStatistics()` immediately
before every such read). -/
structure Detector where
  hist : Nat → SensorData
  bufferIndex : Nat
  bufferSize : Nat

/-- `AnomalyDetector::AnomalyDetector()` / `clearHistory()`: empty buffer. -/
def Detector.empty : Detector :=
  { hist := fun _ => SensorData.default, bufferIndex := 0, bufferSize := 0 }

/-- `AnomalyDetector::addToBuffer`. -/
def addToBuffer (d : SensorData) (det : Detector) : Detector :=
  { hist := Function.update det.hist det.bufferIndex d
    bufferIndex := (det.bufferIndex + 1) % 24
    bufferSize := if det.bufferSize < 24 then det.bufferSize + 1 else det.bufferSize }

/-- Channel sum over the filled part of the buffer
(`extractSensorValues` + the summation loop of `calculateStats`). -/
def chanSum (det : Detector) (c : Fin 4) : ℚ :=
  ∑ i in Finset.range det.bufferSize, chan c (det.hist i)

/-- `SensorStats.mean` as computed by `calculateStats`. -/
def chanMean (det : Detector) (c : Fin 4) : ℚ :=
  chanSum det c / det.bufferSize

/-- `SensorStats.variance` (population variance) as computed by `calculateStats`. -/
def chanVar (det : Detector) (c : Fin 4) : ℚ :=
  (∑ i in Finset.range det.bufferSize, (chan c (det.hist i) - chanMean det c) ^ 2)
    / det.bufferSize

/-- `AnomalyDetector::calculateZScore`: `(value - mean) / stdDev`, guarded to 0
when the standard deviation is zero (`stdDev = √variance`, so `stdDev = 0`
exactly when `variance = 0`). -/
noncomputable def calculateZScore (det : Detector) (c : Fin 4) (v : ℚ) : ℝ :=
  if chanVar det c = 0 then 0
  else ((v : ℝ) - (chanMean det c : ℝ)) / Real.sqrt ((chanVar det c : ℝ))

/-- `maxZ = max(max(|moistureZ|,|temperatureZ|), max(|humidityZ|,|lightZ|))`. -/
noncomputable def maxAbsZ (det : Detector) (d : SensorData) : ℝ :=
  max (max |calculateZScore det 0 (chan 0 d)| |calculateZScore det 1 (chan 1 d)|)
      (max |calculateZScore det 2 (chan 2 d)| |calculateZScore det 3 (chan 3 d)|)

/-- `AnomalyDetector::calculateAnomalyScore`: pushes the reading into the
buffer, returns 0 while fewer than `MIN_SAMPLES = 5` samples are buffered,
otherwise `0.5 * (1 + tanh(maxZ / √2))`.  Returns the score together with the
mutated detector state. -/
noncomputable def calculateAnomalyScore (det : Detector) (d : SensorData) :
    ℝ × Detector :=
  let det' := addToBuffer d det
  if det'.bufferSize < 5 then (0, det')
  else ((1 / 2) * (1 + Real.tanh (maxAbsZ det' d / Real.sqrt 2)), det')

/-- `AnomalyDetector::isSensorDisconnected`: extreme-band detection. -/
def isSensorDisconnected (d : SensorData) : Bool :=
  decide (d.moisture ≤ 5) || decide (1018 ≤ d.moisture) ||
  decide (d.temperature ≤ -50) || decide (80 ≤ d.temperature) ||
  decide (d.humidity ≤ 1) || decide (99 ≤ d.humidity) ||
  decide (d.lightLevel ≤ 5) || decide (1018 ≤ d.lightLevel)

/-- `AnomalyDetector::isSensorOutOfRange`: physically impossible values. -/
def isSensorOutOfRange (d : SensorData) : Bool :=
  decide (d.moisture < 0) || decide (1023 < d.moisture) ||
  decide (d.temperature < -40) || decide (70 < d.temperature) ||
  decide (d.humidity < 0) || decide (100 < d.humidity) ||
  decide (d.lightLevel < 0) || decide (1023 < d.lightLevel)

/-- `AnomalyDetector::isSensorFault`: disconnected, out of physical range, or
statistical anomaly score above 0.997. -/
def isSensorFaultP (det : Detector) (d : SensorData) : Prop :=
  isSensorDisconnected d = true ∨ isSensorOutOfRange d = true ∨
    (997 / 1000 : ℝ) < (calculateAnomalyScore det d).1

/-- One row of `LookupTable::PLANT_DATABASE` (`PlantCharacteristics` without
the name string, which no claim consults). -/
structure PlantRow where
  moistureThreshold : ℚ
  temperatureOptimal : ℚ
  humidityOptimal : ℚ
  lightRequirement : ℚ
  waterAmount : ℚ
  seedlingModifier : ℚ
  vegetativeModifier : ℚ
  floweringModifier : ℚ
  fruitingModifier : ℚ
  matureModifier : ℚ

/-- The 20-row `PLANT_DATABASE` from `LookupTable.cpp` (PROGMEM constants).
Indices beyond 19 are never read: every access is guarded by
`isValidPlantType`. -/
def plantDatabase : Nat → PlantRow
  | 0 => ⟨400, 24, 60, 700, 150, 4/5, 1, 6/5, 13/10, 1⟩
  | 1 => ⟨350, 18, 70, 500, 100, 9/10, 1, 11/10, 4/5, 7/10⟩
  | 2 => ⟨380, 22, 65, 600, 120, 4/5, 1, 6/5, 11/10, 9/10⟩
  | 3 => ⟨300, 20, 75, 450, 130, 9/10, 1, 11/10, 1, 4/5⟩
  | 4 => ⟨420, 26, 55, 750, 140, 4/5, 1, 13/10, 7/5, 11/10⟩
  | 5 => ⟨450, 22, 60, 650, 160, 7/10, 1, 7/5, 6/5, 1⟩
  | 6 => ⟨500, 25, 50, 800, 200, 4/5, 1, 3/2, 13/10, 11/10⟩
  | 7 => ⟨400, 21, 55, 600, 110, 9/10, 1, 6/5, 11/10, 4/5⟩
  | 8 => ⟨350, 20, 65, 550, 105, 4/5, 1, 13/10, 11/10, 9/10⟩
  | 9 => ⟨370, 19, 60, 500, 95, 9/10, 1, 11/10, 1, 4/5⟩
  | 10 => ⟨380, 20, 70, 550, 125, 4/5, 1, 6/5, 7/5, 6/5⟩
  | 11 => ⟨400, 22, 65, 600, 140, 7/10, 1, 13/10, 3/2, 13/10⟩
  | 12 => ⟨390, 21, 68, 580, 135, 4/5, 1, 6/5, 7/5, 6/5⟩
  | 13 => ⟨450, 24, 60, 700, 180, 3/5, 1, 7/5, 8/5, 7/5⟩
  | 14 => ⟨800, 28, 30, 900, 30, 1/2, 1, 11/10, 1, 9/10⟩
  | 15 => ⟨750, 26, 35, 850, 35, 3/5, 1, 1, 9/10, 4/5⟩
  | 16 => ⟨250, 18, 85, 300, 90, 1, 1, 1, 9/10, 4/5⟩
  | 17 => ⟨300, 23, 80, 400, 80, 9/10, 1, 6/5, 11/10, 1⟩
  | 18 => ⟨350, 22, 70, 550, 150, 4/5, 1, 11/10, 1, 9/10⟩
  | _ => ⟨500, 25, 45, 750, 100, 7/10, 1, 13/10, 6/5, 1⟩

/-- `LookupTable` mutable state: the custom-threshold shadow table. -/
structure LookupTable where
  hasCustom : Nat → Bool
  customMoisture : Nat → ℚ
  customTemp : Nat → ℚ
  customHumidity : Nat → ℚ

/-- `LookupTable::LookupTable()`: no custom thresholds. -/
def LookupTable.default : LookupTable :=
  { hasCustom := fun _ => false, customMoisture := fun _ => 0,
    customTemp := fun _ => 0, customHumidity := fun _ => 0 }

/-- `LookupTable::isValidPlantType` (`type >= 0` is automatic on `Nat`). -/
def isValidPlantType (t : Nat) : Bool := decide (t < 20)

/-- `LookupTable::isValidGrowthStage`. -/
def isValidGrowthStage (s : Nat) : Bool := decide (s < 5)

/-- `LookupTable::getStageModifier`. -/
def getStageModifier (t s : Nat) : ℚ :=
  if ¬(isValidPlantType t = true ∧ isValidGrowthStage s = true) then 1
  else match s with
    | 0 => (plantDatabase t).seedlingModifier
    | 1 => (plantDatabase t).vegetativeModifier
    | 2 => (plantDatabase t).floweringModifier
    | 3 => (plantDatabase t).fruitingModifier
    | 4 => (plantDatabase t).matureModifier
    | _ => 1

/-- `LookupTable::getMoistureThreshold`: base (or custom) threshold times the
growth-stage modifier; 400 for invalid plant types. -/
def getMoistureThreshold (lt : LookupTable) (t s : Nat) : ℚ :=
  if ¬(isValidPlantType t = true) then 400
  else
    (if lt.hasCustom t then lt.customMoisture t
     else (plantDatabase t).moistureThreshold) * getStageModifier t s

/-- `TreeNode` from `DecisionTree.h`: child index 0 means "no child". -/
structure TreeNode where
  featureIndex : Nat
  threshold : ℚ
  leftChild : Nat
  rightChild : Nat
  value : ℚ

/-- `DecisionTree` state: fixed node arena, node count, root index. -/
structure DecisionTree where
  nodes : Nat → TreeNode
  nodeCount : Nat
  rootIndex : Nat

/-- `DecisionTree::traverseTree`.  The C version recurses on child indices;
the `fuel` argument (instantiated with `MAX_TREE_NODES = 127` by `predict`)
makes the recursion structural.  Trees installed by `addNode`/`loadDefaultTree`
have depth far below 127, so the fuel is never exhausted on them. -/
def traverseTree (dt : DecisionTree) (features : Nat → ℚ) :
    Nat → Nat → ℚ
  | 0, _ => 0
  | fuel + 1, idx =>
    if idx = 0 ∨ dt.nodeCount < idx then 0
    else
      let node := dt.nodes idx
      if node.leftChild = 0 ∧ node.rightChild = 0 then node.value
      else if features node.featureIndex ≤ node.threshold then
        traverseTree dt features fuel node.leftChild
      else
        traverseTree dt features fuel node.rightChild

/-- `DecisionTree::predict(float features[])`. -/
def predictArr (dt : DecisionTree) (features : Nat → ℚ) : ℚ :=
  if dt.nodeCount = 0 ∨ dt.rootIndex = 0 then 0
  else traverseTree dt features 127 dt.rootIndex

/-- `DecisionTree::predict(float featureScore)`: fills the feature array with
the documented defaults and evaluates the tree. -/
def predictScore (dt : DecisionTree) (fs : ℚ) : ℚ :=
  predictArr dt fun j =>
    if j = 0 then fs
    else if j = 1 then 1/2
    else if j = 2 then 1/2
    else if j = 3 then 1/2
    else if j = 4 then 1/2
    else if j = 5 then 0
    else if j = 6 then 2/5
    else 0

/-- `DecisionTree::loadDefaultTree` (installed by `begin()`): the 7-node
fallback tree. -/
def defaultTree : DecisionTree :=
  { nodes := fun i => match i with
      | 1 => ⟨0, 3/5, 2, 3, 0⟩
      | 2 => ⟨1, 7/10, 4, 5, 0⟩
      | 3 => ⟨4, 1/2, 6, 7, 0⟩
      | 4 => ⟨0, 0, 0, 0, 4/5⟩
      | 5 => ⟨0, 0, 0, 0, 3/5⟩
      | 6 => ⟨0, 0, 0, 0, 3/10⟩
      | 7 => ⟨0, 0, 0, 0, 0⟩
      | _ => ⟨0, 0, 0, 0, 0⟩
    nodeCount := 7
    rootIndex := 1 }

/-- `LocalMLEngine` state: per-sensor plant configuration, the three owned
components, the file-static `failsafeEnabled` flag, and the file-static
performance counters. -/
structure Engine where
  plantTypes : Nat → Nat
  growthStages : Nat → Nat
  lastWateringTime : Nat → Nat
  tree : DecisionTree
  lookup : LookupTable
  detector : Detector
  failsafeEnabled : Bool
  inferenceCount : Nat
  totalInferenceTime : Nat

/-- Engine state after the constructor and `begin()`: all sensors `TOMATO`
(= 0) in `VEGETATIVE` (= 1) stage, never watered, default tree, default
lookup table, empty detector, failsafe enabled, zero counters. -/
def Engine.default : Engine :=
  { plantTypes := fun _ => 0, growthStages := fun _ => 1,
    lastWateringTime := fun _ => 0, tree := defaultTree,
    lookup := LookupTable.default, detector := Detector.empty,
    failsafeEnabled := true, inferenceCount := 0, totalInferenceTime := 0 }

/-- Arduino `constrain(x, lo, hi)`. -/
def constrain (x lo hi : ℚ) : ℚ :=
  if x < lo then lo else if hi < x then hi else x

/-- `LocalMLEngine::calculateFeatureScore`: normalized weighted feature sum. -/
def calculateFeatureScore (d : SensorData) : ℚ :=
  let moistureScore := constrain (d.moisture / 1023) 0 1
  let tempScore := constrain ((d.temperature - 10) / 30) 0 1
  let humidityScore := constrain (d.humidity / 100) 0 1
  let lightScore := constrain (d.lightLevel / 1023) 0 1
  let timeScore := constrain ((d.lastWatered : ℚ) / 48) 0 1
  moistureScore * (2/5) + tempScore * (1/5) + humidityScore * (1/5) +
    lightScore * (1/10) + timeScore * (1/10)

/-- `LocalMLEngine::predictWaterNeed`: feature score → tree prediction →
multiplication by the plant/stage moisture threshold.  Returns the adjusted
prediction together with the engine (the static inference counter is bumped;
intra-call elapsed `millis()` is modelled as 0). -/
def predictWaterNeed (e : Engine) (d : SensorData) : ℚ × Engine :=
  let prediction := predictScore e.tree (calculateFeatureScore d)
  let threshold := getMoistureThreshold e.lookup d.plantType d.growthStage
  (prediction * threshold, { e with inferenceCount := e.inferenceCount + 1 })

/-- `LocalMLEngine::mapToWaterAmount`: quantization at 0.75 / 0.5 / 0.25. -/
def mapToWaterAmount (prediction : ℚ) : WaterAmount :=
  if 3/4 < prediction then .HIGH_WATER
  else if 1/2 < prediction then .MEDIUM_WATER
  else if 1/4 < prediction then .LOW_WATER
  else .NO_WATER

/-- `LocalMLEngine::calculateWaterDuration`: pump-on milliseconds per tier
(100 ml/s pump). -/
def calculateWaterDuration : WaterAmount → Nat
  | .LOW_WATER => 500
  | .MEDIUM_WATER => 1000
  | .HIGH_WATER => 2000
  | .NO_WATER => 0

/-- `LocalMLEngine::isTimeToWater`: first watering, or more than
`MIN_WATERING_INTERVAL = 6 * 3600000` ms since the recorded one. -/
def isTimeToWater (e : Engine) (idx now : Nat) : Bool :=
  if e.lastWateringTime idx = 0 then true
  else decide (21600000 < usub32 now (e.lastWateringTime idx))

/-- `LocalMLEngine::recordWatering`. -/
def recordWatering (e : Engine) (idx now : Nat) : Engine :=
  if idx < 4 then
    { e with lastWateringTime := Function.update e.lastWateringTime idx now }
  else e

/-- `Action` struct (default-constructed: no watering); main.cpp refers to it as `LocalAction`. -/
structure LocalAction where
  shouldWater : Bool
  waterDuration : Nat
  waterAmount : ℚ
  isFailsafe : Bool
deriving DecidableEq

/-- Default `Action()`. -/
def LocalAction.none : LocalAction :=
  { shouldWater := false, waterDuration := 0, waterAmount := 0, isFailsafe := false }

/-- The `modifiedData` built at the top of `getImmediateAction`: the raw
reading with the sensor's plant configuration and
`(millis() - lastWateringTime[i]) / 3600000` hours patched in. -/
def modifyData (e : Engine) (idx : Nat) (d : SensorData) (now : Nat) : SensorData :=
  { d with plantType := e.plantTypes idx, growthStage := e.growthStages idx,
           lastWatered := usub32 now (e.lastWateringTime idx) / 3600000 }

/-- `LocalMLEngine::detectAnomaly`: anomaly score above
`ANOMALY_THRESHOLD_VAL = 0.997`. -/
def detectAnomalyP (det : Detector) (d : SensorData) : Prop :=
  (997 / 1000 : ℝ) < (calculateAnomalyScore det d).1

open Classical in
/-- `LocalMLEngine::getImmediateAction`: index validation, anomaly-driven
failsafe branch (fixed medium-tier watering when moisture exceeds
1.2 × threshold), otherwise tree prediction, tier mapping, re-watering
interval check and watering record.  Returns the action together with the
mutated engine. -/
noncomputable def getImmediateAction (e : Engine) (idx : Nat) (d : SensorData)
    (now : Nat) : LocalAction × Engine :=
  if 4 ≤ idx then (LocalAction.none, e)
  else
    let md := modifyData e idx d now
    let res := calculateAnomalyScore e.detector md
    let e1 := { e with detector := res.2 }
    if (997 / 1000 : ℝ) < res.1 then
      if e.failsafeEnabled then
        (if getMoistureThreshold e.lookup md.plantType md.growthStage * (6/5)
            < md.moisture then
          ({ shouldWater := true, waterDuration := calculateWaterDuration .MEDIUM_WATER,
             waterAmount := 100, isFailsafe := true }, e1)
        else (LocalAction.none, e1))
      else (LocalAction.none, e1)
    else
      let pr := predictWaterNeed e1 md
      let amount := mapToWaterAmount pr.1
      if 0 < amount.val then
        if isTimeToWater pr.2 idx now then
          ({ shouldWater := true, waterDuration := calculateWaterDuration amount,
             waterAmount := (amount.val : ℚ) * 50, isFailsafe := false },
           recordWatering pr.2 idx now)
        else (LocalAction.none, pr.2)
      else (LocalAction.none, pr.2)

/-- `LocalMLEngine::resetStats`. -/
def Engine.resetStats (e : Engine) : Engine :=
  { e with inferenceCount := 0, totalInferenceTime := 0 }

/-- `PumpState` from `main.cpp`, extended with `relayOn`: the state of the
physical relay pin (`digitalWrite(RELAY_PINS[i], LOW)` turns the pump on,
`HIGH` turns it off).  `wateringCount` is a 6-bit bitfield (wraps at 64). -/
structure Pump where
  isActive : Bool
  startTime : Nat
  duration : Nat
  lastWateringTime : Nat
  emergencyStop : Bool
  failsafeTriggered : Bool
  wateringCount : Nat
  relayOn : Bool
deriving DecidableEq

/-- Startup pump state (`pumpStates[i]` zero-initialized; relay driven HIGH
= off in `setup()`). -/
def Pump.idle : Pump :=
  { isActive := false, startTime := 0, duration := 0, lastWateringTime := 0,
    emergencyStop := false, failsafeTriggered := false, wateringCount := 0,
    relayOn := false }

/-- Effect of `triggerPumpFailsafe` on the pump itself: relay off,
deactivated, sticky `failsafeTriggered`, `emergencyStop` set.  (The
system-level escalation to global failsafe mode is modelled separately in
`triggerPumpFailsafeSys`.) -/
def triggerPumpFailsafe (p : Pump) : Pump :=
  { p with relayOn := false, isActive := false, failsafeTriggered := true,
           emergencyStop := true }

/-- Per-pump body of `updatePumpStates` at time `now` (`millis()`):
absolute `FAILSAFE_PUMP_DURATION = 60000` ceiling first, then emergency stop,
then normal completion at `duration`, then the 5000 ms grace-period
stuck-pump check. -/
def updatePump (now : Nat) (p : Pump) : Pump :=
  if p.isActive then
    let elapsed := usub32 now p.startTime
    if 60000 < elapsed then triggerPumpFailsafe p
    else if p.emergencyStop then
      { p with relayOn := false, isActive := false, lastWateringTime := now }
    else if p.duration ≤ elapsed then
      { p with relayOn := false, isActive := false, lastWateringTime := now }
    else if p.duration + 5000 < elapsed then triggerPumpFailsafe p
    else p
  else p

/-- A pump state after a sequence of `updatePumpStates` ticks at the given
`millis()` values. -/
def runPump (ts : List Nat) (p : Pump) : Pump :=
  ts.foldl (fun q t => updatePump t q) p

/-- Whole-system state of `main.cpp`: the global failsafe flag, both pump
states, moisture-sensor health, the ML engine (with its file-statics), the
statistics counters and the loop bookkeeping timestamps. -/
structure Sys where
  failsafe : Bool
  pumps : Fin 2 → Pump
  sensorFailed : Fin 2 → Bool
  sensorLastValid : Fin 2 → Nat
  engine : Engine
  totalDecisions : Nat
  totalWateringActions : Nat
  totalAnomalies : Nat
  lastSensorRead : Nat
  lastSystemHealthCheck : Nat
  lastSerialReport : Nat
  lastESP32Send : Nat

/-- `emergencyStopAllPumps`: sets the emergency-stop flag on active pumps. -/
def emergencyStopAllPumps (s : Sys) : Sys :=
  { s with pumps := fun i =>
      if (s.pumps i).isActive then { s.pumps i with emergencyStop := true }
      else s.pumps i }

/-- `enterSystemFailsafeMode`: no-op when already active, otherwise sets the
global flag and emergency-stops all pumps. -/
def enterSystemFailsafeMode (s : Sys) : Sys :=
  if s.failsafe then s
  else emergencyStopAllPumps { s with failsafe := true }

/-- `triggerPumpFailsafe(pumpIndex, reason)` at system level: mutates the
pump, then escalates to global failsafe mode when at least two pumps have
their sticky `failsafeTriggered` flag set. -/
def triggerPumpFailsafeSys (i : Fin 2) (s : Sys) : Sys :=
  let s1 := { s with pumps := Function.update s.pumps i (triggerPumpFailsafe (s.pumps i)) }
  let cnt := (if (s1.pumps 0).failsafeTriggered then 1 else 0) +
             (if (s1.pumps 1).failsafeTriggered then 1 else 0)
  if 2 ≤ cnt then enterSystemFailsafeMode s1 else s1

/-- Body of the `updatePumpStates` loop for pump `i` at time `now`. -/
def updatePumpStep (now : Nat) (i : Fin 2) (s : Sys) : Sys :=
  let p := s.pumps i
  if p.isActive then
    let elapsed := usub32 now p.startTime
    if 60000 < elapsed then triggerPumpFailsafeSys i s
    else if p.emergencyStop then
      let p2 := { p with relayOn := false, isActive := false, lastWateringTime := now }
      { s with pumps := Function.update s.pumps i p2 }
    else if p.duration ≤ elapsed then
      let p2 := { p with relayOn := false, isActive := false, lastWateringTime := now }
      { s with pumps := Function.update s.pumps i p2 }
    else if p.duration + 5000 < elapsed then triggerPumpFailsafeSys i s
    else s
  else s

/-- `updatePumpStates`: both pumps in order. -/
def updatePumpStates (now : Nat) (s : Sys) : Sys :=
  updatePumpStep now 1 (updatePumpStep now 0 s)

/-- `checkPumpFailsafe`: cooldown (`PUMP_COOLDOWN_TIME = 300000` ms) elapsed
and daily watering count within the cap of 20 (the duplicated count check in
the source tests the same condition twice). -/
def checkPumpFailsafe (i : Fin 2) (now : Nat) (s : Sys) : Bool :=
  if usub32 now (s.pumps i).lastWateringTime < 300000 then false
  else if 20 < (s.pumps i).wateringCount then false
  else true

/-- `validatePumpOperation`: pump failsafe gate plus sensor-health gate (the
over-duration branch only logs — the duration is capped later, not rejected). -/
def validatePumpOperation (i : Fin 2) (now : Nat) (s : Sys) : Bool :=
  if ¬ checkPumpFailsafe i now s then false
  else if s.sensorFailed i then false
  else true

/-- `executeWateringAction`: global-failsafe gate, already-active gate,
validation gate, duration cap at `MAX_PUMP_DURATION = 30000`, then pump
start (relay LOW, i.e. on). -/
def executeWateringAction (i : Fin 2) (a : LocalAction) (now : Nat) (s : Sys) : Sys :=
  if s.failsafe then s
  else if (s.pumps i).isActive then s
  else if ¬ validatePumpOperation i now s then s
  else
    let safeDuration := min a.waterDuration 30000
    let started : Pump :=
      { isActive := true, startTime := now, duration := safeDuration,
        lastWateringTime := (s.pumps i).lastWateringTime,
        emergencyStop := false, failsafeTriggered := false,
        wateringCount := ((s.pumps i).wateringCount + 1) % 64,
        relayOn := true }
    { s with pumps := Function.update s.pumps i started }

/-- External inputs of one loop iteration: `millis()` and the raw analog
reads.  Under `MEMORY_OPTIMIZED` the DHT is disabled, so
`readTemperature() = 22.5` and `readHumidity() = 60.0` are constants. -/
structure TickInput where
  now : Nat
  moisture : Fin 2 → Nat
  light : Nat

/-- `updateSensorHealth`. -/
def updateSensorHealth (i : Fin 2) (reading : Nat) (isValid : Bool) (s : Sys) : Sys :=
  if isValid then
    { s with sensorLastValid := Function.update s.sensorLastValid i reading,
             sensorFailed := Function.update s.sensorFailed i false }
  else
    { s with sensorFailed := Function.update s.sensorFailed i true }

open Classical in
/-- `processSensor`: moisture validation and health tracking, fallback
substitution for the (constant) environmental channels, the engine decision,
conditional watering, the second `detectAnomaly` ingestion, and the counters.
Per `main.cpp` the `LocalSensorData` handed to the engine carries temperature
and humidity in tenths (`22.5 → 225`, `60.0 → 600`). -/
noncomputable def processSensor (i : Fin 2) (inp : TickInput) (s : Sys) : Sys :=
  let m := inp.moisture i
  let validMoisture := decide (m ≤ 1023)
  let validLight := decide (inp.light ≤ 1023)
  let s1 := updateSensorHealth i m validMoisture s
  if s1.sensorFailed i then s1
  else if ¬ validMoisture then s1
  else
    let lightLevel := if validLight then inp.light else 500
    let sd : SensorData :=
      { moisture := m, temperature := 225, humidity := 600,
        lightLevel := lightLevel, lastWatered := 0, plantType := 0, growthStage := 1 }
    let ae := getImmediateAction s1.engine i sd inp.now
    let s2 := { s1 with engine := ae.2, totalDecisions := s1.totalDecisions + 1 }
    let s3 := if ae.1.shouldWater then
        { executeWateringAction i ae.1 inp.now s2 with
            totalWateringActions := s2.totalWateringActions + 1 }
      else s2
    let anres := calculateAnomalyScore s3.engine.detector sd
    let s4 := { s3 with engine := { s3.engine with detector := anres.2 } }
    if (997 / 1000 : ℝ) < anres.1 then
      { s4 with totalAnomalies := s4.totalAnomalies + 1 }
    else s4

/-- `processAllSensors`: both plant sensors in order. -/
noncomputable def processAllSensors (inp : TickInput) (s : Sys) : Sys :=
  processSensor 1 inp (processSensor 0 inp s)

/-- One iteration of `loop()` without serial-command handling: pump-state
update first (safety priority), the 30 s health check (which only observes and
logs — it mutates nothing but its own timestamp), sensor processing gated on
`!systemFailsafeMode` and the 2 s read interval, and the 10 s status report
(print only). -/
noncomputable def tick (inp : TickInput) (s : Sys) : Sys :=
  let s1 := updatePumpStates inp.now s
  let s2 := if 30000 ≤ usub32 inp.now s1.lastSystemHealthCheck then
      { s1 with lastSystemHealthCheck := inp.now }
    else s1
  let s3 := if ¬ s2.failsafe ∧ 2000 ≤ usub32 inp.now s2.lastSensorRead then
      { processAllSensors inp s2 with lastSensorRead := inp.now }
    else s2
  if 10000 ≤ usub32 inp.now s3.lastSerialReport then
    { s3 with lastSerialReport := inp.now }
  else s3

/-- A run of consecutive loop iterations. -/
noncomputable def runTicks (l : List TickInput) (s : Sys) : Sys :=
  l.foldl (fun st inp => tick inp st) s

/-- `performEmergencyShutdown`: force every relay off and every pump
inactive with its emergency flag set, then enter global failsafe mode. -/
def performEmergencyShutdown (s : Sys) : Sys :=
  enterSystemFailsafeMode
    { s with pumps := fun i =>
        { s.pumps i with relayOn := false, isActive := false, emergencyStop := true } }

/-- The serial-command dispatch inside `loop()` (`main.cpp` lines 282–303):
`emergency`/`stop` shuts down, `reset` logs and clears `systemFailsafeMode`,
`status` only prints. -/
def loopHandleCommand (cmd : String) (s : Sys) : Sys :=
  if cmd = "emergency" ∨ cmd = "stop" then performEmergencyShutdown s
  else if cmd = "reset" then { s with failsafe := false }
  else s

/-- The `serialEvent()` dispatch (`main.cpp` lines 674–710): `status` and
`debug` only print, `reset` clears the statistics counters (engine and
globals), `stop`/`emergency` emergency-stops all pumps, `plant …` only
prints. -/
def serialEventHandle (cmd : String) (s : Sys) : Sys :=
  if cmd = "status" then s
  else if cmd = "reset" then
    { s with engine := s.engine.resetStats, totalDecisions := 0,
             totalWateringActions := 0, totalAnomalies := 0 }
  else if cmd = "debug" then s
  else if cmd = "stop" ∨ cmd = "emergency" then emergencyStopAllPumps s
  else s

/-- A convenient concrete startup state: engine defaults, idle pumps, healthy
sensors, zero counters (`systemFailsafeMode = false`). -/
def Sys.start : Sys :=
  { failsafe := false, pumps := fun _ => Pump.idle,
    sensorFailed := fun _ => false, sensorLastValid := fun _ => 0,
    engine := Engine.default, totalDecisions := 0, totalWateringActions := 0,
    totalAnomalies := 0, lastSensorRead := 0, lastSystemHealthCheck := 0,
    lastSerialReport := 0, lastESP32Send := 0 }

/-! ## Shared helper lemmas -/

/-- The anomaly score is 0 whenever fewer than `MIN_SAMPLES` readings
(including the current one) have been ingested. -/
theorem score_cold (det : Detector) (d : SensorData) (h : det.bufferSize < 4) :
    (calculateAnomalyScore det d).1 = 0 := by
  have hlt : det.bufferSize < 24 := by omega
  simp only [calculateAnomalyScore, addToBuffer, hlt, if_true]
  rw [if_pos (by omega)]

/-- `detectAnomaly` never fires while the window is cold. -/
theorem not_detectAnomaly_cold (det : Detector) (d : SensorData)
    (h : det.bufferSize < 4) : ¬ detectAnomalyP det d := by
  rw [detectAnomalyP, score_cold det d h]
  norm_num

/-! ## C3: bounded pump duration -/

/-- Concrete pump state used to exercise the absolute failsafe ceiling. -/
def pumpOverrun : Pump :=
  { isActive := true, startTime := 0, duration := 30000, lastWateringTime := 0,
    emergencyStop := false, failsafeTriggered := false, wateringCount := 1,
    relayOn := true }

/-- C3 (bounded pump duration): after any sequence of `updatePumpStates` ticks
with arbitrary delays, an update that observes an active pump with elapsed
time (32-bit `millis` subtraction) strictly above the 60000 ms failsafe
ceiling forces the pump off in that same update — `isActive` becomes false,
the relay is turned off and the sticky failsafe flag is set; moreover no
update ever leaves any pump active with observed elapsed time beyond the
ceiling. -/
theorem bounded_pump_duration (ts : List Nat) (t : Nat) (p : Pump)
    (ha : (runPump ts p).isActive = true)
    (hb : 60000 < usub32 t (runPump ts p).startTime) :
    (updatePump t (runPump ts p)).isActive = false ∧
    (updatePump t (runPump ts p)).relayOn = false ∧
    (updatePump t (runPump ts p)).failsafeTriggered = true ∧
    ∀ q : Pump, (updatePump t q).isActive = true → usub32 t q.startTime ≤ 60000 := by
  have hforce : updatePump t (runPump ts p) = triggerPumpFailsafe (runPump ts p) := by
    simp only [updatePump, ha, if_true, if_pos hb]
  refine ⟨by rw [hforce]; rfl, by rw [hforce]; rfl, by rw [hforce]; rfl, ?_⟩
  intro q hq
  by_contra hgt
  push_neg at hgt
  rcases hact : q.isActive with _ | _
  · simp [updatePump, hact] at hq
  · rw [updatePump, hact] at hq
    simp only [if_true, if_pos hgt, triggerPumpFailsafe] at hq
    simp at hq

/-- Witness for C3 at a concrete overrun state. -/
theorem bounded_pump_duration_witness :
    (updatePump 70000 (runPump [] pumpOverrun)).isActive = false ∧
    (updatePump 70000 (runPump [] pumpOverrun)).relayOn = false ∧
    (updatePump 70000 (runPump [] pumpOverrun)).failsafeTriggered = true := by
  have h := bounded_pump_duration [] 70000 pumpOverrun (by decide) (by decide)
  exact ⟨h.1, h.2.1, h.2.2.1⟩

/-! ## C4: stuck-pump detection (dead branch) -/

/-- Pump state 5001 ms past its planned 2000 ms duration, still active, no
stop recorded — exactly the stuck-pump scenario of the specification. -/
def pumpStuck : Pump :=
  { isActive := true, startTime := 0, duration := 2000, lastWateringTime := 0,
    emergencyStop := false, failsafeTriggered := false, wateringCount := 1,
    relayOn := true }

/-- C4 (stuck-pump detection): at elapsed `= plannedDuration + gracePeriod + 1
= 7001` ms the update performs a NORMAL stop (the `elapsed >= duration` branch
shadows the `elapsed > duration + 5000` grace branch) and `failsafeTriggered`
stays `false`, contradicting the claim; in general the stuck-pump branch is
dead code — on any update whose observed elapsed time is within the 60000 ms
ceiling, `failsafeTriggered` is left unchanged. -/
theorem stuck_pump_branch_dead :
    ((updatePump 7001 pumpStuck).isActive = false ∧
     (updatePump 7001 pumpStuck).failsafeTriggered = false ∧
     (updatePump 7001 pumpStuck).lastWateringTime = 7001) ∧
    ∀ (now : Nat) (p : Pump),
      (updatePump now p).failsafeTriggered = p.failsafeTriggered ∨
        60000 < usub32 now p.startTime := by
  refine ⟨by decide, ?_⟩
  intro now p
  by_cases hceil : 60000 < usub32 now p.startTime
  · exact Or.inr hceil
  · refine Or.inl ?_
    rcases hact : p.isActive with _ | _
    · simp [updatePump, hact]
    · rw [updatePump, hact]
      simp only [if_true, if_neg hceil]
      by_cases hes : p.emergencyStop
      · simp [hes]
      · simp only [hes, if_false]
        by_cases hdur : p.duration ≤ usub32 now p.startTime
        · simp [hdur]
        · have hstuck : ¬ p.duration + 5000 < usub32 now p.startTime := by omega
          simp [hdur, hstuck]

/-! ## C2: the reset command and global safe mode -/

/-- A system currently in global failsafe mode. -/
def sysFailsafeOn : Sys := { Sys.start with failsafe := true }

/-- Counterexample to C2: issuing `reset` while global safe mode is active
(through the command dispatch inside `loop()`, `main.cpp` 293–298) CLEARS
`systemFailsafeMode`, so the safe-mode flag is not still set afterwards. -/
theorem reset_counterexample :
    sysFailsafeOn.failsafe = true ∧
    (loopHandleCommand "reset" sysFailsafeOn).failsafe = false := by
  constructor
  · rfl
  · simp [loopHandleCommand]

/-- C2 amended: the `serialEvent()` handler of `reset` clears the statistics
counters (globals and engine statics) and leaves the safe-mode flag untouched,
but the `loop()` handler of the same `reset` command clears
`systemFailsafeMode` without touching the counters; there is no distinct
resume command — `reset` is the command that exits global safe mode. -/
theorem reset_semantics_amended (s : Sys) :
    (serialEventHandle "reset" s).failsafe = s.failsafe ∧
    (serialEventHandle "reset" s).totalDecisions = 0 ∧
    (serialEventHandle "reset" s).totalWateringActions = 0 ∧
    (serialEventHandle "reset" s).totalAnomalies = 0 ∧
    (serialEventHandle "reset" s).engine.inferenceCount = 0 ∧
    (serialEventHandle "reset" s).engine.totalInferenceTime = 0 ∧
    (loopHandleCommand "reset" s).failsafe = false ∧
    (loopHandleCommand "reset" s).totalDecisions = s.totalDecisions ∧
    (loopHandleCommand "reset" s).totalWateringActions = s.totalWateringActions ∧
    (loopHandleCommand "reset" s).pumps = s.pumps := by
  simp [serialEventHandle, loopHandleCommand, Engine.resetStats]

/-! ## C8: cold-start guard of the anomaly detector -/

/-- A reading pinned at the top of the moisture range (disconnection band). -/
def disconnectedReading : SensorData :=
  { moisture := 1023, temperature := 25, humidity := 50, lightLevel := 500,
    lastWatered := 0, plantType := 0, growthStage := 1 }

/-- An in-band, in-range reading. -/
def normalReading : SensorData :=
  { moisture := 500, temperature := 25, humidity := 50, lightLevel := 500,
    lastWatered := 0, plantType := 0, growthStage := 1 }

/-- Counterexample to C8: with zero readings ingested, `isSensorFault` already
returns `true` for a reading in the disconnection band — the fault check is
not disabled during cold start. -/
theorem coldstart_fault_counterexample :
    Detector.empty.bufferSize = 0 ∧
    isSensorFaultP Detector.empty disconnectedReading := by
  exact ⟨rfl, Or.inl (by decide)⟩

/-- C8 amended: while fewer than `MIN_SAMPLES = 5` readings (including the
current one) have been ingested, `calculateAnomalyScore` returns 0 and the
statistical component of `isSensorFault` is disabled; `isSensorFault` returns
`false` during cold start exactly for the readings that pass the
window-independent disconnection and physical-range checks. -/
theorem coldstart_guard_amended (det : Detector) (d : SensorData)
    (h : det.bufferSize < 4) :
    (calculateAnomalyScore det d).1 = 0 ∧
    (isSensorDisconnected d = false → isSensorOutOfRange d = false →
      ¬ isSensorFaultP det d) := by
  refine ⟨score_cold det d h, ?_⟩
  intro hdis hoor hfault
  rcases hfault with hf | hf | hf
  · rw [hdis] at hf; cases hf
  · rw [hoor] at hf; cases hf
  · rw [score_cold det d h] at hf; norm_num at hf

/-- Witness for C8 (amended) on the empty detector and an in-band reading. -/
theorem coldstart_guard_witness :
    (calculateAnomalyScore Detector.empty normalReading).1 = 0 ∧
    ¬ isSensorFaultP Detector.empty normalReading := by
  have h := coldstart_guard_amended Detector.empty normalReading (by decide)
  exact ⟨h.1, h.2 (by decide) (by decide)⟩

/-! ## C5: threshold rescaling of the tree output -/

/-- Unfolding equation of `traverseTree` at positive fuel (used for stepwise
evaluation; `simp` recursion on the fuel literal is avoided on purpose). -/
theorem traverseTree_succ (dt : DecisionTree) (features : Nat → ℚ)
    (fuel idx : Nat) :
    traverseTree dt features (fuel + 1) idx =
      if idx = 0 ∨ dt.nodeCount < idx then 0
      else
        let node := dt.nodes idx
        if node.leftChild = 0 ∧ node.rightChild = 0 then node.value
        else if features node.featureIndex ≤ node.threshold then
          traverseTree dt features fuel node.leftChild
        else
          traverseTree dt features fuel node.rightChild := rfl

/-- On the default tree, any feature vector with moisture feature at most 0.6
and temperature feature at most 0.7 reaches leaf 4: raw prediction 0.8. -/
theorem predictArr_default_low (f : Nat → ℚ) (h0 : f 0 ≤ 3/5)
    (h1 : f 1 ≤ 7/10) : predictArr defaultTree f = 4/5 := by
  have s1 : traverseTree defaultTree f 127 1 = traverseTree defaultTree f 126 2 := by
    rw [show (127:Nat) = 126+1 from rfl, traverseTree_succ]
    norm_num [defaultTree, h0]
  have s2 : traverseTree defaultTree f 126 2 = traverseTree defaultTree f 125 4 := by
    rw [show (126:Nat) = 125+1 from rfl, traverseTree_succ]
    norm_num [defaultTree, h1]
  have s3 : traverseTree defaultTree f 125 4 = 4/5 := by
    rw [show (125:Nat) = 124+1 from rfl, traverseTree_succ]
    norm_num [defaultTree]
  rw [predictArr, if_neg (by norm_num [defaultTree]),
    show defaultTree.rootIndex = 1 from rfl, s1, s2, s3]

/-- `predict(float featureScore)` on the default tree returns 0.8 whenever the
feature score is at most 0.6. -/
theorem predictScore_default_low (fs : ℚ) (h : fs ≤ 3/5) :
    predictScore defaultTree fs = 4/5 := by
  rw [predictScore]
  exact predictArr_default_low _ (by norm_num [h]) (by norm_num)

/-- Feature score of `normalReading` (moisture 500, temperature 25,
humidity 50, light 500, 0 h since watering). -/
theorem featureScore_normal :
    calculateFeatureScore normalReading = 250/1023 + 1/5 := by
  norm_num [calculateFeatureScore, normalReading, constrain]

/-- Modelled from the spec (for comparison with the source computation): the
spec asserts `adjusted prediction = rawScore × (adjustedThreshold /
referenceThreshold)`. -/
def specAdjustedPrediction (raw adjThr refThr : ℚ) : ℚ :=
  raw * (adjThr / refThr)

/-- Stage-adjusted tomato/vegetative threshold on the default table: 400 × 1.0. -/
theorem tomato_vegetative_threshold :
    getMoistureThreshold Engine.default.lookup 0 1 = 400 := by
  norm_num [getMoistureThreshold, Engine.default, LookupTable.default,
    isValidPlantType, getStageModifier, isValidGrowthStage, plantDatabase]

/-- Counterexample to C5: for a tomato/vegetative reading the code multiplies
the raw tree score 0.8 by the threshold 400 itself, giving adjusted prediction
320 — not the claimed `rawScore × (adjustedThreshold / referenceThreshold)`,
which would be 0.8 — and the quantized tier is high, not medium. -/
theorem threshold_rescaling_counterexample :
    predictScore Engine.default.tree (calculateFeatureScore normalReading) = 4/5 ∧
    (predictWaterNeed Engine.default normalReading).1 = 320 ∧
    specAdjustedPrediction (4/5) 400 400 = 4/5 ∧
    (predictWaterNeed Engine.default normalReading).1 ≠
      specAdjustedPrediction
        (predictScore Engine.default.tree (calculateFeatureScore normalReading))
        400 400 ∧
    mapToWaterAmount (predictWaterNeed Engine.default normalReading).1 =
      WaterAmount.HIGH_WATER := by
  have hraw : predictScore Engine.default.tree (calculateFeatureScore normalReading)
      = 4/5 := by
    rw [featureScore_normal]
    exact predictScore_default_low _ (by norm_num)
  have hadj : (predictWaterNeed Engine.default normalReading).1 = 320 := by
    simp only [predictWaterNeed]
    rw [show normalReading.plantType = 0 from rfl,
        show normalReading.growthStage = 1 from rfl,
        tomato_vegetative_threshold, hraw]
    norm_num
  refine ⟨hraw, hadj, by norm_num [specAdjustedPrediction], ?_, ?_⟩
  · rw [hadj, hraw]
    norm_num [specAdjustedPrediction]
  · rw [hadj]
    norm_num [mapToWaterAmount]

/-- C5 amended: the adjusted prediction equals the raw tree score multiplied
by the stage-adjusted moisture threshold itself (no division by a reference
threshold); for tomato in vegetative stage the threshold is 400 × 1.0 = 400,
so a raw score of 0.6 yields adjusted prediction 240 and the quantized tier is
high, not medium. -/
theorem threshold_scaling_amended (e : Engine) (d : SensorData) :
    (predictWaterNeed e d).1 =
      predictScore e.tree (calculateFeatureScore d) *
        getMoistureThreshold e.lookup d.plantType d.growthStage ∧
    getMoistureThreshold Engine.default.lookup 0 1 = 400 ∧
    (3/5 : ℚ) * getMoistureThreshold Engine.default.lookup 0 1 = 240 ∧
    mapToWaterAmount ((3/5) * getMoistureThreshold Engine.default.lookup 0 1) =
      WaterAmount.HIGH_WATER := by
  refine ⟨rfl, tomato_vegetative_threshold, ?_, ?_⟩
  · rw [tomato_vegetative_threshold]; norm_num
  · rw [tomato_vegetative_threshold]; norm_num [mapToWaterAmount]

/-! ## C10 / C7: watering record effects of `getImmediateAction` -/

/-- Case-splitting equation for `getImmediateAction` on validated indices. -/
theorem getImmediateAction_unfold (e : Engine) (idx : Nat) (d : SensorData)
    (now : Nat) (hidx : idx < 4) :
    getImmediateAction e idx d now =
      (let md := modifyData e idx d now
       let res := calculateAnomalyScore e.detector md
       let e1 := { e with detector := res.2 }
       if (997 / 1000 : ℝ) < res.1 then
         if e.failsafeEnabled then
           (if getMoistureThreshold e.lookup md.plantType md.growthStage * (6/5)
               < md.moisture then
             ({ shouldWater := true,
                waterDuration := calculateWaterDuration .MEDIUM_WATER,
                waterAmount := 100, isFailsafe := true }, e1)
           else (LocalAction.none, e1))
         else (LocalAction.none, e1)
       else
         let pr := predictWaterNeed e1 md
         let amount := mapToWaterAmount pr.1
         if 0 < amount.val then
           if isTimeToWater pr.2 idx now then
             ({ shouldWater := true, waterDuration := calculateWaterDuration amount,
                waterAmount := (amount.val : ℚ) * 50, isFailsafe := false },
              recordWatering pr.2 idx now)
           else (LocalAction.none, pr.2)
         else (LocalAction.none, pr.2)) := by
  rw [getImmediateAction, if_neg (by omega)]

/-- C10 (frame effect of failsafe waterings): whenever `getImmediateAction`
returns an action flagged `isFailsafe = true`, the per-sensor
`lastWateringTime` table is left completely unchanged (only the non-failsafe
watering branch calls `recordWatering`), so the failsafe watering neither
consults nor restarts the re-watering interval: `isTimeToWater` answers
exactly as before for every future instant. -/
theorem failsafe_frame_effect (e : Engine) (idx : Nat) (d : SensorData) (now : Nat)
    (h : (getImmediateAction e idx d now).1.isFailsafe = true) :
    (getImmediateAction e idx d now).2.lastWateringTime = e.lastWateringTime ∧
    ∀ t, isTimeToWater (getImmediateAction e idx d now).2 idx t
      = isTimeToWater e idx t := by
  by_cases hidx : idx < 4
  case neg =>
    rw [getImmediateAction, if_pos (by omega)] at h
    simp [LocalAction.none] at h
  case pos =>
    rw [getImmediateAction_unfold e idx d now hidx] at h ⊢
    simp only at h ⊢
    by_cases hanom : (997 / 1000 : ℝ)
        < (calculateAnomalyScore e.detector (modifyData e idx d now)).1
    · rw [if_pos hanom] at h ⊢
      by_cases hfse : e.failsafeEnabled
      · rw [if_pos hfse] at h ⊢
        by_cases hm : getMoistureThreshold e.lookup (modifyData e idx d now).plantType
            (modifyData e idx d now).growthStage * (6/5)
            < (modifyData e idx d now).moisture
        · rw [if_pos hm]
          exact ⟨rfl, fun t => rfl⟩
        · rw [if_neg hm] at h
          simp [LocalAction.none] at h
      · rw [if_neg hfse] at h
        simp [LocalAction.none] at h
    · rw [if_neg hanom] at h
      by_cases hamt : 0 < (mapToWaterAmount (predictWaterNeed
          { e with detector := (calculateAnomalyScore e.detector (modifyData e idx d now)).2 }
          (modifyData e idx d now)).1).val
      · rw [if_pos hamt] at h
        by_cases htw : isTimeToWater (predictWaterNeed
            { e with detector := (calculateAnomalyScore e.detector (modifyData e idx d now)).2 }
            (modifyData e idx d now)).2 idx now = true
        · rw [if_pos htw] at h
          simp at h
        · rw [if_neg htw] at h
          simp [LocalAction.none] at h
      · rw [if_neg hamt] at h
        simp [LocalAction.none] at h

/-- A non-failsafe watering can only come from the normal pipeline: the index
is valid, the re-watering interval check passed, and the watering was
recorded at `now` for this index. -/
theorem nonfailsafe_water_record (e : Engine) (idx : Nat) (d : SensorData) (t : Nat)
    (hw : (getImmediateAction e idx d t).1.shouldWater = true)
    (hf : (getImmediateAction e idx d t).1.isFailsafe = false) :
    idx < 4 ∧ isTimeToWater e idx t = true ∧
    (getImmediateAction e idx d t).2.lastWateringTime
      = Function.update e.lastWateringTime idx t := by
  by_cases hidx : idx < 4
  case neg =>
    rw [getImmediateAction, if_pos (by omega)] at hw
    simp [LocalAction.none] at hw
  case pos =>
    refine ⟨hidx, ?_⟩
    rw [getImmediateAction_unfold e idx d t hidx] at hw hf ⊢
    simp only at hw hf ⊢
    by_cases hanom : (997 / 1000 : ℝ)
        < (calculateAnomalyScore e.detector (modifyData e idx d t)).1
    · rw [if_pos hanom] at hw hf
      by_cases hfse : e.failsafeEnabled
      · rw [if_pos hfse] at hw hf
        by_cases hm : getMoistureThreshold e.lookup (modifyData e idx d t).plantType
            (modifyData e idx d t).growthStage * (6/5)
            < (modifyData e idx d t).moisture
        · rw [if_pos hm] at hf
          simp at hf
        · rw [if_neg hm] at hw
          simp [LocalAction.none] at hw
      · rw [if_neg hfse] at hw
        simp [LocalAction.none] at hw
    · rw [if_neg hanom] at hw hf ⊢
      by_cases hamt : 0 < (mapToWaterAmount (predictWaterNeed
          { e with detector := (calculateAnomalyScore e.detector (modifyData e idx d t)).2 }
          (modifyData e idx d t)).1).val
      · rw [if_pos hamt] at hw hf ⊢
        by_cases htw : isTimeToWater (predictWaterNeed
            { e with detector := (calculateAnomalyScore e.detector (modifyData e idx d t)).2 }
            (modifyData e idx d t)).2 idx t = true
        · rw [if_pos htw]
          refine ⟨htw, ?_⟩
          simp [recordWatering, hidx, predictWaterNeed]
        · rw [if_neg htw] at hw
          simp [LocalAction.none] at hw
      · rw [if_neg hamt] at hw
        simp [LocalAction.none] at hw

/-- Sufficient conditions for the normal pipeline to authorize a watering. -/
theorem getImmediateAction_waters (e : Engine) (idx : Nat) (d : SensorData) (now : Nat)
    (hidx : idx < 4)
    (hsc : ¬ detectAnomalyP e.detector (modifyData e idx d now))
    (hamt : 0 < (mapToWaterAmount
        (predictWaterNeed e (modifyData e idx d now)).1).val)
    (htime : isTimeToWater e idx now = true) :
    (getImmediateAction e idx d now).1.shouldWater = true ∧
    (getImmediateAction e idx d now).1.isFailsafe = false := by
  rw [detectAnomalyP] at hsc
  rw [getImmediateAction_unfold e idx d now hidx]
  simp only
  have hamt2 : 0 < (mapToWaterAmount (predictWaterNeed
      { e with detector := (calculateAnomalyScore e.detector (modifyData e idx d now)).2 }
      (modifyData e idx d now)).1).val := hamt
  have htime2 : isTimeToWater (predictWaterNeed
      { e with detector := (calculateAnomalyScore e.detector (modifyData e idx d now)).2 }
      (modifyData e idx d now)).2 idx now = true := htime
  rw [if_neg hsc, if_pos hamt2, if_pos htime2]
  exact ⟨rfl, rfl⟩

/-- The detector state returned by `calculateAnomalyScore` is the buffer after
ingestion, in both the cold-start and the scoring branch. -/
theorem calculateAnomalyScore_snd (det : Detector) (d : SensorData) :
    (calculateAnomalyScore det d).2 = addToBuffer d det := by
  rw [calculateAnomalyScore]
  split_ifs <;> rfl

/-- On a validated index, `getImmediateAction` ingests the modified reading
into the detector and touches no other engine configuration. -/
theorem getImmediateAction_frame (e : Engine) (idx : Nat) (d : SensorData) (t : Nat)
    (hidx : idx < 4) :
    (getImmediateAction e idx d t).2.detector
      = addToBuffer (modifyData e idx d t) e.detector ∧
    (getImmediateAction e idx d t).2.tree = e.tree ∧
    (getImmediateAction e idx d t).2.lookup = e.lookup ∧
    (getImmediateAction e idx d t).2.plantTypes = e.plantTypes ∧
    (getImmediateAction e idx d t).2.growthStages = e.growthStages ∧
    (getImmediateAction e idx d t).2.failsafeEnabled = e.failsafeEnabled := by
  rw [getImmediateAction_unfold e idx d t hidx]
  simp only
  split_ifs <;>
    simp [recordWatering, predictWaterNeed, calculateAnomalyScore_snd, hidx]

/-- Outside the anomaly branch, no returned action carries the failsafe flag. -/
theorem nonanom_not_failsafe (e : Engine) (idx : Nat) (d : SensorData) (t : Nat)
    (hsc : ¬ detectAnomalyP e.detector (modifyData e idx d t)) :
    (getImmediateAction e idx d t).1.isFailsafe = false := by
  rw [detectAnomalyP] at hsc
  by_cases hidx : idx < 4
  · rw [getImmediateAction_unfold e idx d t hidx]
    simp only
    rw [if_neg hsc]
    split_ifs <;> rfl
  · rw [getImmediateAction, if_pos (by omega)]
    rfl

/-- General form of the tomato/vegetative threshold fact. -/
theorem default_threshold_tomato_veg :
    getMoistureThreshold LookupTable.default 0 1 = 400 := by
  norm_num [getMoistureThreshold, LookupTable.default, isValidPlantType,
    getStageModifier, isValidGrowthStage, plantDatabase]

/-- On a default-configured engine, any tomato/vegetative reading with
feature score at most 0.6 yields adjusted prediction 0.8 × 400 = 320. -/
theorem predictWaterNeed_val320 (e : Engine) (d : SensorData)
    (htree : e.tree = defaultTree) (hlk : e.lookup = LookupTable.default)
    (hp : d.plantType = 0) (hg : d.growthStage = 1)
    (hfs : calculateFeatureScore d ≤ 3/5) :
    (predictWaterNeed e d).1 = 320 := by
  simp only [predictWaterNeed, htree, hlk, hp, hg]
  rw [predictScore_default_low _ hfs, default_threshold_tomato_veg]
  norm_num

/-- C7 amended: two authorized non-failsafe waterings for the same sensor are
separated by more than the 6-hour minimum interval, PROVIDED the first one is
recorded at a nonzero `millis()` timestamp — timestamp 0 doubles as the
never-watered sentinel of `lastWateringTime`, so a watering recorded at
`millis() = 0` starts no cooldown (see the counterexample); and a non-failsafe
decision whose interval has not elapsed is suppressed (`shouldWater = false`)
regardless of the computed tier. -/
theorem cooldown_monotonic_amended (e : Engine) (idx : Nat) (d1 d2 : SensorData)
    (t1 t2 : Nat)
    (h1w : (getImmediateAction e idx d1 t1).1.shouldWater = true)
    (h1f : (getImmediateAction e idx d1 t1).1.isFailsafe = false)
    (h2w : (getImmediateAction (getImmediateAction e idx d1 t1).2 idx d2 t2).1.shouldWater
      = true)
    (h2f : (getImmediateAction (getImmediateAction e idx d1 t1).2 idx d2 t2).1.isFailsafe
      = false)
    (ht1 : t1 ≠ 0) (hle : t1 ≤ t2) (h32 : t2 < 2 ^ 32) :
    21600000 < t2 - t1 ∧
    ∀ (f : Engine) (j : Nat) (d : SensorData) (t : Nat),
      isTimeToWater f j t = false →
      (getImmediateAction f j d t).1.isFailsafe = false →
      (getImmediateAction f j d t).1.shouldWater = false := by
  constructor
  · obtain ⟨hidx, -, hrec⟩ := nonfailsafe_water_record e idx d1 t1 h1w h1f
    obtain ⟨-, htime2, -⟩ := nonfailsafe_water_record
      (getImmediateAction e idx d1 t1).2 idx d2 t2 h2w h2f
    unfold isTimeToWater at htime2
    rw [hrec, Function.update_same, if_neg ht1] at htime2
    simp only [decide_eq_true_eq] at htime2
    rwa [usub32_eq t2 t1 hle h32] at htime2
  · intro f j d t hfalse hff
    by_cases hidx : j < 4
    · by_cases hanom : detectAnomalyP f.detector (modifyData f j d t)
      · rw [detectAnomalyP] at hanom
        rw [getImmediateAction_unfold f j d t hidx] at hff ⊢
        simp only at hff ⊢
        rw [if_pos hanom] at hff ⊢
        by_cases hfse : f.failsafeEnabled
        · rw [if_pos hfse] at hff ⊢
          by_cases hm : getMoistureThreshold f.lookup (modifyData f j d t).plantType
              (modifyData f j d t).growthStage * (6/5) < (modifyData f j d t).moisture
          · rw [if_pos hm] at hff
            simp at hff
          · rw [if_neg hm]
            rfl
        · rw [if_neg hfse]
          rfl
      · rw [detectAnomalyP] at hanom
        rw [getImmediateAction_unfold f j d t hidx]
        simp only
        rw [if_neg hanom]
        by_cases hamt : 0 < (mapToWaterAmount (predictWaterNeed
            { f with detector := (calculateAnomalyScore f.detector (modifyData f j d t)).2 }
            (modifyData f j d t)).1).val
        · rw [if_pos hamt]
          have htw : isTimeToWater (predictWaterNeed
              { f with detector := (calculateAnomalyScore f.detector (modifyData f j d t)).2 }
              (modifyData f j d t)).2 j t = false := hfalse
          rw [if_neg (by simp [htw])]
          rfl
        · rw [if_neg hamt]
          rfl
    · rw [getImmediateAction, if_pos (by omega)]
      rfl

/-- On the freshly started engine, a tomato/vegetative `normalReading` at any
instant whose hour conversion is 0 triggers a non-failsafe watering. -/
theorem default_call_waters (t : Nat)
    (hmd : modifyData Engine.default 0 normalReading t = normalReading) :
    (getImmediateAction Engine.default 0 normalReading t).1.shouldWater = true ∧
    (getImmediateAction Engine.default 0 normalReading t).1.isFailsafe = false := by
  apply getImmediateAction_waters Engine.default 0 normalReading t (by norm_num)
  · rw [hmd]
    exact not_detectAnomaly_cold _ _ (by decide)
  · rw [hmd, predictWaterNeed_val320 Engine.default normalReading rfl rfl rfl rfl
      (by rw [featureScore_normal]; norm_num)]
    norm_num [mapToWaterAmount, WaterAmount.val]
  · unfold isTimeToWater
    simp [Engine.default]

/-- Counterexample to C7: from the startup state, `normalReading` authorizes a
non-failsafe watering at `millis() = 0`, the watering is recorded with
timestamp 0 — which is also the never-watered sentinel — and a second
non-failsafe watering is authorized one millisecond later: two non-failsafe
waterings 1 ms apart, far below the 6-hour minimum interval. -/
theorem cooldown_zero_counterexample :
    ((getImmediateAction Engine.default 0 normalReading 0).1.shouldWater = true ∧
     (getImmediateAction Engine.default 0 normalReading 0).1.isFailsafe = false) ∧
    ((getImmediateAction (getImmediateAction Engine.default 0 normalReading 0).2
        0 normalReading 1).1.shouldWater = true ∧
     (getImmediateAction (getImmediateAction Engine.default 0 normalReading 0).2
        0 normalReading 1).1.isFailsafe = false) ∧
    (1 : Nat) - 0 < 21600000 := by
  have hmd1 : modifyData Engine.default 0 normalReading 0 = normalReading := by decide
  have h1 := default_call_waters 0 hmd1
  have hframe := getImmediateAction_frame Engine.default 0 normalReading 0 (by norm_num)
  have hrec := (nonfailsafe_water_record Engine.default 0 normalReading 0 h1.1 h1.2).2.2
  have hlw : (getImmediateAction Engine.default 0 normalReading 0).2.lastWateringTime 0 = 0 := by
    rw [hrec, Function.update_same]
  have hpt : (getImmediateAction Engine.default 0 normalReading 0).2.plantTypes 0 = 0 := by
    rw [hframe.2.2.2.1]
    rfl
  have hgs : (getImmediateAction Engine.default 0 normalReading 0).2.growthStages 0 = 1 := by
    rw [hframe.2.2.2.2.1]
    rfl
  have hmd2 : modifyData (getImmediateAction Engine.default 0 normalReading 0).2
      0 normalReading 1 = normalReading := by
    simp only [modifyData, hpt, hgs, hlw]
    norm_num [normalReading, usub32]
  have hsc2 : ¬ detectAnomalyP (getImmediateAction Engine.default 0 normalReading 0).2.detector
      (modifyData (getImmediateAction Engine.default 0 normalReading 0).2 0 normalReading 1) :=
    not_detectAnomaly_cold _ _ (by rw [hframe.1, hmd1]; decide)
  have htree2 : (getImmediateAction Engine.default 0 normalReading 0).2.tree = defaultTree := by
    rw [hframe.2.1]
    rfl
  have hlk2 : (getImmediateAction Engine.default 0 normalReading 0).2.lookup
      = LookupTable.default := by
    rw [hframe.2.2.1]
    rfl
  have hamt2 : 0 < (mapToWaterAmount (predictWaterNeed
      (getImmediateAction Engine.default 0 normalReading 0).2
      (modifyData (getImmediateAction Engine.default 0 normalReading 0).2
        0 normalReading 1)).1).val := by
    rw [hmd2, predictWaterNeed_val320 _ normalReading htree2 hlk2 rfl rfl
      (by rw [featureScore_normal]; norm_num)]
    norm_num [mapToWaterAmount, WaterAmount.val]
  have htime2 : isTimeToWater (getImmediateAction Engine.default 0 normalReading 0).2 0 1
      = true := by
    unfold isTimeToWater
    rw [hlw]
    rfl
  have h2 := getImmediateAction_waters (getImmediateAction Engine.default 0 normalReading 0).2
    0 normalReading 1 (by norm_num) hsc2 hamt2 htime2
  exact ⟨h1, h2, by norm_num⟩

/-- The reading of the second witness call: six hours recorded since the last
watering. -/
def lateReading : SensorData := { normalReading with lastWatered := 6 }

/-- An engine whose sensor 0 was last watered at `millis() = 5`. -/
def eSupp : Engine :=
  { Engine.default with
      lastWateringTime := Function.update Engine.default.lastWateringTime 0 5 }

/-- Witness for C7 (amended) with waterings at 1000 ms and 21601001 ms, plus a
concrete suppressed decision 5 ms after a recorded watering. -/
theorem cooldown_monotonic_witness :
    21600000 < 21601001 - 1000 ∧
    (getImmediateAction eSupp 0 normalReading 10).1.shouldWater = false := by
  have hmd1 : modifyData Engine.default 0 normalReading 1000 = normalReading := by decide
  have h1 := default_call_waters 1000 hmd1
  have hframe := getImmediateAction_frame Engine.default 0 normalReading 1000 (by norm_num)
  have hrec := (nonfailsafe_water_record Engine.default 0 normalReading 1000 h1.1 h1.2).2.2
  have hlw : (getImmediateAction Engine.default 0 normalReading 1000).2.lastWateringTime 0
      = 1000 := by
    rw [hrec, Function.update_same]
  have hpt : (getImmediateAction Engine.default 0 normalReading 1000).2.plantTypes 0 = 0 := by
    rw [hframe.2.2.2.1]
    rfl
  have hgs : (getImmediateAction Engine.default 0 normalReading 1000).2.growthStages 0 = 1 := by
    rw [hframe.2.2.2.2.1]
    rfl
  have hmd2 : modifyData (getImmediateAction Engine.default 0 normalReading 1000).2
      0 normalReading 21601001 = lateReading := by
    simp only [modifyData, hpt, hgs, hlw]
    norm_num [normalReading, lateReading, usub32]
  have hsc2 : ¬ detectAnomalyP
      (getImmediateAction Engine.default 0 normalReading 1000).2.detector
      (modifyData (getImmediateAction Engine.default 0 normalReading 1000).2
        0 normalReading 21601001) :=
    not_detectAnomaly_cold _ _ (by rw [hframe.1, hmd1]; decide)
  have htree2 : (getImmediateAction Engine.default 0 normalReading 1000).2.tree
      = defaultTree := by
    rw [hframe.2.1]
    rfl
  have hlk2 : (getImmediateAction Engine.default 0 normalReading 1000).2.lookup
      = LookupTable.default := by
    rw [hframe.2.2.1]
    rfl
  have hamt2 : 0 < (mapToWaterAmount (predictWaterNeed
      (getImmediateAction Engine.default 0 normalReading 1000).2
      (modifyData (getImmediateAction Engine.default 0 normalReading 1000).2
        0 normalReading 21601001)).1).val := by
    rw [hmd2, predictWaterNeed_val320 _ lateReading htree2 hlk2 rfl rfl
      (by norm_num [calculateFeatureScore, lateReading, normalReading, constrain])]
    norm_num [mapToWaterAmount, WaterAmount.val]
  have htime2 : isTimeToWater (getImmediateAction Engine.default 0 normalReading 1000).2
      0 21601001 = true := by
    unfold isTimeToWater
    rw [hlw]
    norm_num [usub32]
  have h2 := getImmediateAction_waters
    (getImmediateAction Engine.default 0 normalReading 1000).2
    0 normalReading 21601001 (by norm_num) hsc2 hamt2 htime2
  have h := cooldown_monotonic_amended Engine.default 0 normalReading normalReading
    1000 21601001 h1.1 h1.2 h2.1 h2.2 (by norm_num) (by norm_num) (by norm_num)
  refine ⟨h.1, h.2 eSupp 0 normalReading 10 (by decide) ?_⟩
  exact nonanom_not_failsafe eSupp 0 normalReading 10
    (not_detectAnomaly_cold _ _ (by decide))

/-! ## Hyperbolic-tangent facts for the anomaly score -/

theorem tanh_lt_one (x : ℝ) : Real.tanh x < 1 := by
  rw [Real.tanh_eq_sinh_div_cosh, div_lt_one (Real.cosh_pos x)]
  have h := Real.cosh_sub_sinh x
  have := Real.exp_pos (-x)
  linarith

theorem neg_one_lt_tanh (x : ℝ) : -1 < Real.tanh x := by
  rw [Real.tanh_eq_sinh_div_cosh, lt_div_iff (Real.cosh_pos x)]
  have h := Real.sinh_add_cosh x
  have := Real.exp_pos x
  linarith

theorem tanh_mono {a b : ℝ} (h : a ≤ b) : Real.tanh a ≤ Real.tanh b := by
  rw [Real.tanh_eq_sinh_div_cosh, Real.tanh_eq_sinh_div_cosh,
    div_le_div_iff (Real.cosh_pos a) (Real.cosh_pos b)]
  have hs : 0 ≤ Real.sinh (b - a) := by
    have h0 : Real.sinh 0 ≤ Real.sinh (b - a) := Real.sinh_le_sinh.mpr (by linarith)
    rwa [Real.sinh_zero] at h0
  have hsub := Real.sinh_sub b a
  nlinarith [Real.cosh_pos a, Real.cosh_pos b]

theorem tanh_three_gt : (497/500 : ℝ) < Real.tanh 3 := by
  have hP : (0:ℝ) < Real.exp 3 := Real.exp_pos 3
  have hN : (0:ℝ) < Real.exp (-3) := Real.exp_pos _
  have hPN : Real.exp 3 * Real.exp (-3) = 1 := by
    rw [← Real.exp_add]
    norm_num
  have h3 : Real.exp 1 ^ 6 = Real.exp 3 * Real.exp 3 := by
    have e3 := Real.exp_one_pow 3
    push_cast at e3
    rw [← e3]
    ring
  have hsq : (997/3 : ℝ) < Real.exp 3 * Real.exp 3 := by
    have h1 : (997/3 : ℝ) < 2.7182818283 ^ 6 := by norm_num
    have h2 : (2.7182818283 : ℝ) ^ 6 < Real.exp 1 ^ 6 :=
      pow_lt_pow_left Real.exp_one_gt_d9 (by norm_num) (by norm_num)
    linarith [h3 ▸ h2]
  rw [Real.tanh_eq_sinh_div_cosh, Real.sinh_eq, Real.cosh_eq]
  have hcosh : (0:ℝ) < (Real.exp 3 + Real.exp (-3)) / 2 := by positivity
  rw [lt_div_iff hcosh]
  nlinarith [hPN, hsq, hP, hN]

/-- Scores of the form `0.5·(1 + tanh x)` with `x ≥ 3` clear the 0.997
anomaly threshold. -/
theorem score_gt_of_three_le (x : ℝ) (hx : (3:ℝ) ≤ x) :
    (997/1000 : ℝ) < (1/2) * (1 + Real.tanh x) := by
  have h1 : Real.tanh 3 ≤ Real.tanh x := tanh_mono hx
  have h2 := tanh_three_gt
  linarith

/-! ## The concrete anomalous window (23 × moisture 420, then 900) -/

/-- Baseline buffer entry: moisture 420, environment channels constant. -/
def baselineReading : SensorData :=
  { moisture := 420, temperature := 25, humidity := 50, lightLevel := 500,
    lastWatered := 0, plantType := 0, growthStage := 1 }

/-- The outlier reading: moisture 900 with identical environment channels. -/
def outlierReading : SensorData :=
  { moisture := 900, temperature := 25, humidity := 50, lightLevel := 500,
    lastWatered := 0, plantType := 0, growthStage := 1 }

/-- Detector holding 23 baseline readings (write position 23). -/
def det23 : Detector :=
  { hist := fun _ => baselineReading, bufferIndex := 23, bufferSize := 23 }

/-- The buffer after ingesting the outlier. -/
def det24 : Detector := addToBuffer outlierReading det23

theorem det24_size : det24.bufferSize = 24 := rfl

/-- A channel that is constant over the filled window has variance 0. -/
theorem chanVar_const (det : Detector) (c : Fin 4) (v : ℚ)
    (hn : det.bufferSize ≠ 0)
    (h : ∀ i < det.bufferSize, chan c (det.hist i) = v) :
    chanVar det c = 0 := by
  have hmean : chanMean det c = v := by
    rw [chanMean, chanSum,
      Finset.sum_congr rfl (fun i hi => h i (Finset.mem_range.mp hi)),
      Finset.sum_const, Finset.card_range]
    field_simp
  rw [chanVar]
  have hz : ∀ i ∈ Finset.range det.bufferSize,
      (chan c (det.hist i) - chanMean det c) ^ 2 = 0 := by
    intro i hi
    rw [h i (Finset.mem_range.mp hi), hmean]
    ring
  rw [Finset.sum_congr rfl hz, Finset.sum_const, Finset.card_range]
  simp

theorem det24_mean0 : chanMean det24 0 = 440 := by
  rw [chanMean, chanSum, det24_size]
  simp only [Finset.sum_range_succ, Finset.sum_range_zero]
  norm_num [det24, det23, addToBuffer, Function.update, chan,
    baselineReading, outlierReading]

theorem det24_var0 : chanVar det24 0 = 9200 := by
  rw [chanVar, det24_size, det24_mean0]
  simp only [Finset.sum_range_succ, Finset.sum_range_zero]
  norm_num [det24, det23, addToBuffer, Function.update, chan,
    baselineReading, outlierReading]

theorem det24_var1 : chanVar det24 1 = 0 := by
  apply chanVar_const det24 1 25 (by rw [det24_size]; norm_num)
  intro i hi
  by_cases h23 : i = 23 <;>
    simp [det24, det23, addToBuffer, Function.update, h23, chan,
      baselineReading, outlierReading]

theorem det24_var2 : chanVar det24 2 = 0 := by
  apply chanVar_const det24 2 50 (by rw [det24_size]; norm_num)
  intro i hi
  by_cases h23 : i = 23 <;>
    simp [det24, det23, addToBuffer, Function.update, h23, chan,
      baselineReading, outlierReading]

theorem det24_var3 : chanVar det24 3 = 0 := by
  apply chanVar_const det24 3 500 (by rw [det24_size]; norm_num)
  intro i hi
  by_cases h23 : i = 23 <;>
    simp [det24, det23, addToBuffer, Function.update, h23, chan,
      baselineReading, outlierReading]

theorem det24_z0 : calculateZScore det24 0 (chan 0 outlierReading)
    = 460 / Real.sqrt 9200 := by
  rw [calculateZScore, if_neg (by rw [det24_var0]; norm_num), det24_var0, det24_mean0]
  norm_num [chan, outlierReading]

theorem det24_maxZ : maxAbsZ det24 outlierReading = 460 / Real.sqrt 9200 := by
  have hz0 : (0:ℝ) ≤ 460 / Real.sqrt 9200 :=
    div_nonneg (by norm_num) (Real.sqrt_nonneg _)
  rw [maxAbsZ, det24_z0]
  rw [show calculateZScore det24 1 (chan 1 outlierReading) = 0 by
    rw [calculateZScore, if_pos det24_var1]]
  rw [show calculateZScore det24 2 (chan 2 outlierReading) = 0 by
    rw [calculateZScore, if_pos det24_var2]]
  rw [show calculateZScore det24 3 (chan 3 outlierReading) = 0 by
    rw [calculateZScore, if_pos det24_var3]]
  rw [abs_of_nonneg hz0]
  simp [hz0]

theorem maxZ_simplify : (460 / Real.sqrt 9200) / Real.sqrt 2 = Real.sqrt (23/2) := by
  rw [div_div, ← Real.sqrt_mul (by norm_num : (0:ℝ) ≤ 9200),
    show (9200 : ℝ) * 2 = 18400 by norm_num,
    show (23/2 : ℝ) = 211600 / 18400 by norm_num,
    Real.sqrt_div (by norm_num : (0:ℝ) ≤ 211600),
    show (211600:ℝ) = 460^2 by norm_num,
    Real.sqrt_sq (by norm_num : (0:ℝ) ≤ 460)]

theorem det24_score : (calculateAnomalyScore det23 outlierReading).1
    = (1/2) * (1 + Real.tanh (Real.sqrt (23/2))) := by
  rw [calculateAnomalyScore]
  rw [show addToBuffer outlierReading det23 = det24 from rfl,
    if_neg (by rw [det24_size]; norm_num), det24_maxZ, maxZ_simplify]

/-- The 23×420-then-900 window clears the 0.997 anomaly threshold. -/
theorem det23_anom : detectAnomalyP det23 outlierReading := by
  rw [detectAnomalyP, det24_score]
  exact score_gt_of_three_le _
    ((Real.le_sqrt (by norm_num) (by norm_num)).mpr (by norm_num))

/-- Evaluation of the anomaly-failsafe branch: flagged reading, failsafe mode
on, moisture above 1.2 × threshold — the returned action is the fixed
medium-tier failsafe watering. -/
theorem anomaly_branch_eval (e : Engine) (idx : Nat) (d : SensorData) (now : Nat)
    (hidx : idx < 4)
    (hanom : (997/1000 : ℝ)
      < (calculateAnomalyScore e.detector (modifyData e idx d now)).1)
    (hfse : e.failsafeEnabled = true)
    (hm : getMoistureThreshold e.lookup (modifyData e idx d now).plantType
        (modifyData e idx d now).growthStage * (6/5) < (modifyData e idx d now).moisture) :
    (getImmediateAction e idx d now).1 =
      { shouldWater := true, waterDuration := calculateWaterDuration .MEDIUM_WATER,
        waterAmount := 100, isFailsafe := true } := by
  rw [getImmediateAction_unfold e idx d now hidx]
  simp only
  rw [if_pos hanom, if_pos hfse, if_pos hm]

/-- C6 (anomaly-driven failsafe override): when the anomaly check flags the
modified reading, then (a) with failsafe mode enabled and the moisture reading
above 1.2 × the stage-adjusted threshold, `getImmediateAction` returns exactly
the fixed medium-tier failsafe action (1000 ms, 100 ml, `isFailsafe = true`) —
a constant, so the decision tree, threshold rescaling, tier quantization and
re-watering-interval check contribute nothing to it; and (b) if failsafe mode
is off or the moisture test fails, the returned action has
`shouldWater = false`. -/
theorem anomaly_failsafe_override (e : Engine) (idx : Nat) (d : SensorData) (now : Nat)
    (hidx : idx < 4)
    (hanom : detectAnomalyP e.detector (modifyData e idx d now)) :
    (e.failsafeEnabled = true →
      getMoistureThreshold e.lookup (e.plantTypes idx) (e.growthStages idx) * (6/5)
        < d.moisture →
      (getImmediateAction e idx d now).1 =
        { shouldWater := true, waterDuration := calculateWaterDuration .MEDIUM_WATER,
          waterAmount := 100, isFailsafe := true }) ∧
    ((e.failsafeEnabled = false ∨
        ¬ getMoistureThreshold e.lookup (e.plantTypes idx) (e.growthStages idx) * (6/5)
          < d.moisture) →
      (getImmediateAction e idx d now).1.shouldWater = false) := by
  rw [detectAnomalyP] at hanom
  constructor
  · intro hfse hm
    exact anomaly_branch_eval e idx d now hidx hanom hfse hm
  · intro hsupp
    rw [getImmediateAction_unfold e idx d now hidx]
    simp only
    rw [if_pos hanom]
    rcases hsupp with hfse | hm
    · rw [if_neg (by rw [hfse]; exact fun h => by cases h)]
      rfl
    · by_cases hfse : e.failsafeEnabled = true
      · rw [if_pos hfse]
        have hm2 : ¬ getMoistureThreshold e.lookup (modifyData e idx d now).plantType
            (modifyData e idx d now).growthStage * (6/5)
            < (modifyData e idx d now).moisture := hm
        rw [if_neg hm2]
        rfl
      · rw [if_neg hfse]
        rfl

/-- Engine with the 23-sample baseline window installed. -/
def e23 : Engine := { Engine.default with detector := det23 }

/-- Witness for C6 on the concrete anomalous tomato/vegetative window. -/
theorem anomaly_failsafe_override_witness :
    detectAnomalyP e23.detector (modifyData e23 0 outlierReading 0) ∧
    (getImmediateAction e23 0 outlierReading 0).1 =
      { shouldWater := true, waterDuration := 1000, waterAmount := 100,
        isFailsafe := true } := by
  have hmd : modifyData e23 0 outlierReading 0 = outlierReading := by decide
  have hanom : detectAnomalyP e23.detector (modifyData e23 0 outlierReading 0) := by
    rw [hmd]
    exact det23_anom
  have h := anomaly_failsafe_override e23 0 outlierReading 0 (by norm_num) hanom
  refine ⟨hanom, ?_⟩
  rw [h.1 rfl (by
    rw [show e23.lookup = LookupTable.default from rfl,
      show e23.plantTypes 0 = 0 from rfl, show e23.growthStages 0 = 1 from rfl,
      default_threshold_tomato_veg, show outlierReading.moisture = 900 from rfl]
    norm_num)]
  rfl

/-- Witness for C10 on the same anomalous window: the returned action is
failsafe-flagged and the watering-time table is untouched. -/
theorem failsafe_frame_witness :
    (getImmediateAction e23 0 outlierReading 0).1.isFailsafe = true ∧
    (getImmediateAction e23 0 outlierReading 0).2.lastWateringTime
      = e23.lastWateringTime ∧
    isTimeToWater (getImmediateAction e23 0 outlierReading 0).2 0 1
      = isTimeToWater e23 0 1 := by
  have hmd : modifyData e23 0 outlierReading 0 = outlierReading := by decide
  have hanom : (997/1000 : ℝ)
      < (calculateAnomalyScore e23.detector (modifyData e23 0 outlierReading 0)).1 := by
    rw [hmd]
    exact det23_anom
  have hm : getMoistureThreshold e23.lookup (modifyData e23 0 outlierReading 0).plantType
      (modifyData e23 0 outlierReading 0).growthStage * (6/5)
      < (modifyData e23 0 outlierReading 0).moisture := by
    rw [hmd, show outlierReading.plantType = 0 from rfl,
      show outlierReading.growthStage = 1 from rfl,
      show e23.lookup = LookupTable.default from rfl, default_threshold_tomato_veg,
      show outlierReading.moisture = 900 from rfl]
    norm_num
  have hfs : (getImmediateAction e23 0 outlierReading 0).1.isFailsafe = true := by
    rw [anomaly_branch_eval e23 0 outlierReading 0 (by norm_num) hanom rfl hm]
  have h := failsafe_frame_effect e23 0 outlierReading 0 hfs
  exact ⟨hfs, h.1, h.2 1⟩

/-! ## C1: global safe mode is sticky -/

theorem enterSystemFailsafeMode_id (s : Sys) (h : s.failsafe = true) :
    enterSystemFailsafeMode s = s := by
  rw [enterSystemFailsafeMode, if_pos h]

theorem triggerPumpFailsafeSys_preserves (i : Fin 2) (s : Sys)
    (h : s.failsafe = true) :
    (triggerPumpFailsafeSys i s).failsafe = true ∧
    ∀ j : Fin 2, (s.pumps j).isActive = false →
      ((triggerPumpFailsafeSys i s).pumps j).isActive = false := by
  rw [triggerPumpFailsafeSys]
  simp only
  have key : ∀ s1 : Sys, s1.failsafe = true →
      (s1.failsafe = true ∧
        ∀ j : Fin 2, (s.pumps j).isActive = false →
          ((s1.pumps j).isActive = false)) →
      (∀ c : Prop, ∀ inst : Decidable c,
        ((if c then enterSystemFailsafeMode s1 else s1).failsafe = true ∧
          ∀ j : Fin 2, (s.pumps j).isActive = false →
            (((if c then enterSystemFailsafeMode s1 else s1).pumps j).isActive = false))) := by
    intro s1 h1 hprops c inst
    split_ifs with hc
    · rw [enterSystemFailsafeMode_id s1 h1]
      exact hprops
    · exact hprops
  apply key
  · exact h
  · refine ⟨h, ?_⟩
    intro j hj
    by_cases hji : j = i
    · subst hji
      simp [Function.update_same, triggerPumpFailsafe]
    · simp [Function.update_noteq hji, hj]

theorem updatePumpStep_preserves (now : Nat) (i : Fin 2) (s : Sys)
    (h : s.failsafe = true) :
    (updatePumpStep now i s).failsafe = true ∧
    ∀ j : Fin 2, (s.pumps j).isActive = false →
      ((updatePumpStep now i s).pumps j).isActive = false := by
  rw [updatePumpStep]
  simp only
  split_ifs with hact hceil hes hdur hstuck
  · exact triggerPumpFailsafeSys_preserves i s h
  · refine ⟨h, ?_⟩
    intro j hj
    by_cases hji : j = i
    · subst hji
      simp [Function.update_same]
    · simp [Function.update_noteq hji, hj]
  · refine ⟨h, ?_⟩
    intro j hj
    by_cases hji : j = i
    · subst hji
      simp [Function.update_same]
    · simp [Function.update_noteq hji, hj]
  · exact triggerPumpFailsafeSys_preserves i s h
  · exact ⟨h, fun j hj => hj⟩
  · exact ⟨h, fun j hj => hj⟩

theorem updatePumpStates_preserves (now : Nat) (s : Sys) (h : s.failsafe = true) :
    (updatePumpStates now s).failsafe = true ∧
    ∀ j : Fin 2, (s.pumps j).isActive = false →
      ((updatePumpStates now s).pumps j).isActive = false := by
  obtain ⟨h0f, h0p⟩ := updatePumpStep_preserves now 0 s h
  obtain ⟨h1f, h1p⟩ := updatePumpStep_preserves now 1 (updatePumpStep now 0 s) h0f
  exact ⟨h1f, fun j hj => h1p j (h0p j hj)⟩

theorem tick_preserves (inp : TickInput) (s : Sys) (h : s.failsafe = true) :
    (tick inp s).failsafe = true ∧
    ∀ j : Fin 2, (s.pumps j).isActive = false →
      ((tick inp s).pumps j).isActive = false := by
  obtain ⟨huf, hup⟩ := updatePumpStates_preserves inp.now s h
  rw [tick]
  simp only
  set s1 := updatePumpStates inp.now s with hs1
  set s2 := (if 30000 ≤ usub32 inp.now s1.lastSystemHealthCheck
      then { s1 with lastSystemHealthCheck := inp.now } else s1) with hs2
  have hs2f : s2.failsafe = true := by
    rw [hs2]
    split_ifs <;> exact huf
  have hs2p : ∀ j : Fin 2, (s.pumps j).isActive = false →
      ((s2.pumps j).isActive = false) := by
    rw [hs2]
    split_ifs <;> exact hup
  rw [if_neg (fun (hcon : ¬ s2.failsafe = true ∧ 2000 ≤ usub32 inp.now s2.lastSensorRead)
    => hcon.1 hs2f)]
  split_ifs <;> exact ⟨hs2f, hs2p⟩

theorem runTicks_preserves (l : List TickInput) (s : Sys) (h : s.failsafe = true) :
    (runTicks l s).failsafe = true ∧
    ∀ j : Fin 2, (s.pumps j).isActive = false →
      ((runTicks l s).pumps j).isActive = false := by
  induction l generalizing s with
  | nil => exact ⟨h, fun j hj => hj⟩
  | cons inp rest ih =>
    obtain ⟨hf, hp⟩ := tick_preserves inp s h
    obtain ⟨hf2, hp2⟩ := ih (tick inp s) hf
    exact ⟨hf2, fun j hj => hp2 j (hp j hj)⟩

/-- C1 (global safe mode is sticky): once `systemFailsafeMode` is set, no
sequence of control-loop ticks (pump updates, health checks, sensor
processing) clears it; idle pumps stay idle across any such sequence; and
while the flag is set, `executeWateringAction` rejects every watering start
request, leaving the system state completely unchanged. -/
theorem global_safe_mode_sticky (l : List TickInput) (s : Sys)
    (h : s.failsafe = true) :
    (runTicks l s).failsafe = true ∧
    (∀ i : Fin 2, (s.pumps i).isActive = false →
      ((runTicks l s).pumps i).isActive = false) ∧
    ∀ (s2 : Sys) (i : Fin 2) (a : LocalAction) (now : Nat),
      s2.failsafe = true → executeWateringAction i a now s2 = s2 := by
  obtain ⟨hf, hp⟩ := runTicks_preserves l s h
  refine ⟨hf, hp, ?_⟩
  intro s2 i a now h2
  rw [executeWateringAction, if_pos h2]

/-- Two concrete ticks used by the C1 witness. -/
def tickInputA : TickInput := { now := 1000, moisture := fun _ => 500, light := 500 }

/-- Second concrete tick (2 s later). -/
def tickInputB : TickInput := { now := 3000, moisture := fun _ => 500, light := 500 }

/-- Witness for C1 over two concrete ticks from a safe-mode state. -/
theorem global_safe_mode_sticky_witness :
    (runTicks [tickInputA, tickInputB] sysFailsafeOn).failsafe = true ∧
    ((runTicks [tickInputA, tickInputB] sysFailsafeOn).pumps 0).isActive = false ∧
    executeWateringAction 0 LocalAction.none 5 sysFailsafeOn = sysFailsafeOn := by
  have h := global_safe_mode_sticky [tickInputA, tickInputB] sysFailsafeOn rfl
  exact ⟨h.1, h.2.1 0 rfl, h.2.2 sysFailsafeOn 0 LocalAction.none 5 rfl⟩

/-! ## C9: anomaly score bounds and monotonicity -/

/-- Reachable-buffer invariant of the circular window: the fill level never
exceeds the capacity and the write index points at the next free slot until
the buffer is full. -/
def Detector.WF (det : Detector) : Prop :=
  det.bufferSize ≤ 24 ∧ det.bufferIndex < 24 ∧
    (24 ≤ det.bufferSize ∨ det.bufferIndex = det.bufferSize)

instance (det : Detector) : Decidable det.WF := by
  unfold Detector.WF
  infer_instance

/-- Expansion of a sum of squared deviations. -/
theorem sum_sq_dev (s : Finset ℕ) (f : ℕ → ℚ) (m : ℚ) :
    ∑ i in s, (f i - m)^2
      = (∑ i in s, (f i)^2) - 2*m*(∑ i in s, f i) + s.card * m^2 := by
  have h : ∀ i ∈ s, (f i - m)^2 = (f i)^2 - 2*m*(f i) + m^2 := fun i _ => by ring
  rw [Finset.sum_congr rfl h]
  rw [Finset.sum_add_distrib, Finset.sum_sub_distrib, ← Finset.mul_sum,
    Finset.sum_const, nsmul_eq_mul]

/-- Sum-of-squares form of the population variance. -/
theorem chanVar_formula (det : Detector) (c : Fin 4) (hn : det.bufferSize ≠ 0) :
    chanVar det c
      = (∑ i in Finset.range det.bufferSize, (chan c (det.hist i))^2)
          / det.bufferSize - (chanMean det c)^2 := by
  have hn' : ((det.bufferSize : ℚ)) ≠ 0 := Nat.cast_ne_zero.mpr hn
  rw [chanVar, sum_sq_dev, chanMean, chanSum, Finset.card_range]
  field_simp
  ring

/-- Updating one history slot updates the extracted channel values pointwise. -/
theorem chan_update (hist : Nat → SensorData) (p : Nat) (d : SensorData)
    (c : Fin 4) (i : Nat) :
    chan c (Function.update hist p d i)
      = Function.update (fun j => chan c (hist j)) p (chan c d) i := by
  by_cases hip : i = p
  · subst hip
    simp [Function.update_same]
  · simp [Function.update_noteq hip]

/-- The write position of `addToBuffer` lies inside the filled window of the
resulting detector, for well-formed buffers. -/
theorem bufferIndex_mem (det : Detector) (d : SensorData) (hwf : det.WF) :
    det.bufferIndex ∈ Finset.range (addToBuffer d det).bufferSize := by
  obtain ⟨h24, hidx, hor⟩ := hwf
  rw [Finset.mem_range, addToBuffer]
  simp only
  split_ifs with hlt <;> omega

/-- Channel sum of the post-ingestion buffer: the new value plus the sum over
the untouched slots. -/
theorem chanSum_add (det : Detector) (d : SensorData) (c : Fin 4) (hwf : det.WF) :
    chanSum (addToBuffer d det) c
      = chan c d + ∑ i in Finset.range (addToBuffer d det).bufferSize \ {det.bufferIndex},
          chan c (det.hist i) := by
  rw [chanSum]
  rw [show (addToBuffer d det).hist = Function.update det.hist det.bufferIndex d from rfl]
  rw [Finset.sum_congr rfl (fun i _ => chan_update det.hist det.bufferIndex d c i)]
  exact Finset.sum_update_of_mem (bufferIndex_mem det d hwf) _ _

/-- Channel sum of squares of the post-ingestion buffer. -/
theorem chanSumSq_add (det : Detector) (d : SensorData) (c : Fin 4) (hwf : det.WF) :
    ∑ i in Finset.range (addToBuffer d det).bufferSize,
        (chan c ((addToBuffer d det).hist i))^2
      = (chan c d)^2
        + ∑ i in Finset.range (addToBuffer d det).bufferSize \ {det.bufferIndex},
            (chan c (det.hist i))^2 := by
  have h : ∀ i ∈ Finset.range (addToBuffer d det).bufferSize,
      (chan c ((addToBuffer d det).hist i))^2
        = Function.update (fun j => (chan c (det.hist j))^2) det.bufferIndex
            ((chan c d)^2) i := by
    intro i _
    rw [show (addToBuffer d det).hist = Function.update det.hist det.bufferIndex d from rfl]
    rw [chan_update det.hist det.bufferIndex d c i]
    by_cases hip : i = det.bufferIndex
    · subst hip
      simp [Function.update_same]
    · simp [Function.update_noteq hip]
  rw [Finset.sum_congr rfl h]
  exact Finset.sum_update_of_mem (bufferIndex_mem det d hwf) _ _

/-- Key algebraic split: the variance of the combined window is a constant
(depending only on the other slots) plus `dev² / (n−1)`. -/
theorem var_split (Q R v : ℚ) (n : ℕ) (hn : 2 ≤ n) :
    (Q + v^2)/n - ((R + v)/n)^2
      = (Q/n - R^2/(((n:ℚ) - 1)*n)) + (v - (R + v)/n)^2/((n:ℚ) - 1) := by
  have h2 : (2:ℚ) ≤ (n:ℚ) := by exact_mod_cast hn
  have h0 : ((n:ℚ)) ≠ 0 := by linarith
  have h1 : ((n:ℚ) - 1) ≠ 0 := by linarith
  field_simp
  ring

/-- Variance of the post-ingestion window, split into a part independent of
the new reading and the squared deviation term. -/
theorem chanVar_split (det : Detector) (d : SensorData) (c : Fin 4)
    (hwf : det.WF) (h5 : 5 ≤ (addToBuffer d det).bufferSize) :
    chanVar (addToBuffer d det) c
      = ((∑ i in Finset.range (addToBuffer d det).bufferSize \ {det.bufferIndex},
            (chan c (det.hist i))^2) / ((addToBuffer d det).bufferSize : ℚ)
          - (∑ i in Finset.range (addToBuffer d det).bufferSize \ {det.bufferIndex},
              chan c (det.hist i))^2
            / ((((addToBuffer d det).bufferSize : ℚ) - 1)
                * ((addToBuffer d det).bufferSize : ℚ)))
        + (chan c d - chanMean (addToBuffer d det) c)^2
          / (((addToBuffer d det).bufferSize : ℚ) - 1) := by
  have hn0 : (addToBuffer d det).bufferSize ≠ 0 := by omega
  have hmean : chanMean (addToBuffer d det) c
      = (chan c d + ∑ i in Finset.range (addToBuffer d det).bufferSize
          \ {det.bufferIndex}, chan c (det.hist i))
        / ((addToBuffer d det).bufferSize : ℚ) := by
    rw [chanMean, chanSum_add det d c hwf]
  rw [chanVar_formula _ _ hn0, chanSumSq_add det d c hwf, hmean]
  have h2 : (2:ℚ) ≤ ((addToBuffer d det).bufferSize : ℚ) := by
    exact_mod_cast (by omega : 2 ≤ (addToBuffer d det).bufferSize)
  have hq0 : (((addToBuffer d det).bufferSize : ℚ)) ≠ 0 := by linarith
  have hq1 : (((addToBuffer d det).bufferSize : ℚ) - 1) ≠ 0 := by linarith
  field_simp
  ring

/-- The reading-independent part of the split variance is nonnegative
(Cauchy–Schwarz over the untouched slots). -/
theorem K_nonneg (det : Detector) (d : SensorData) (c : Fin 4)
    (hwf : det.WF) (h5 : 5 ≤ (addToBuffer d det).bufferSize) :
    0 ≤ (∑ i in Finset.range (addToBuffer d det).bufferSize \ {det.bufferIndex},
          (chan c (det.hist i))^2) / ((addToBuffer d det).bufferSize : ℚ)
        - (∑ i in Finset.range (addToBuffer d det).bufferSize \ {det.bufferIndex},
            chan c (det.hist i))^2
          / ((((addToBuffer d det).bufferSize : ℚ) - 1)
              * ((addToBuffer d det).bufferSize : ℚ)) := by
  have hmem := bufferIndex_mem det d hwf
  have hcard : (Finset.range (addToBuffer d det).bufferSize \ {det.bufferIndex}).card
      = (addToBuffer d det).bufferSize - 1 := by
    rw [Finset.card_sdiff (by simpa using hmem)]
    simp
  have hCS := (sq_sum_le_card_mul_sum_sq :
    (∑ i in Finset.range (addToBuffer d det).bufferSize \ {det.bufferIndex},
        chan c (det.hist i))^2
      ≤ ((Finset.range (addToBuffer d det).bufferSize \ {det.bufferIndex}).card : ℚ)
        * ∑ i in Finset.range (addToBuffer d det).bufferSize \ {det.bufferIndex},
            (chan c (det.hist i))^2)
  rw [hcard] at hCS
  have hcast : (((addToBuffer d det).bufferSize - 1 : ℕ) : ℚ)
      = ((addToBuffer d det).bufferSize : ℚ) - 1 := by
    have : 1 ≤ (addToBuffer d det).bufferSize := by omega
    push_cast [this]
    ring
  rw [hcast] at hCS
  have h2 : (2:ℚ) ≤ ((addToBuffer d det).bufferSize : ℚ) := by
    exact_mod_cast (by omega : 2 ≤ (addToBuffer d det).bufferSize)
  rw [sub_nonneg, div_le_div_iff (by nlinarith) (by nlinarith)]
  nlinarith [hCS, sq_nonneg (∑ i in Finset.range (addToBuffer d det).bufferSize
    \ {det.bufferIndex}, chan c (det.hist i))]

/-- Per-channel monotonicity: on a fixed window, a reading with larger
absolute deviation from the (post-ingestion) rolling mean has z-score of at
least as large magnitude. -/
theorem absZ_mono (det : Detector) (c : Fin 4) (d1 d2 : SensorData)
    (hwf : det.WF) (h5 : 5 ≤ (addToBuffer d1 det).bufferSize)
    (hdev : |chan c d1 - chanMean (addToBuffer d1 det) c|
        ≤ |chan c d2 - chanMean (addToBuffer d2 det) c|) :
    |calculateZScore (addToBuffer d1 det) c (chan c d1)|
      ≤ |calculateZScore (addToBuffer d2 det) c (chan c d2)| := by
  have hsz : (addToBuffer d2 det).bufferSize = (addToBuffer d1 det).bufferSize := rfl
  have h52 : 5 ≤ (addToBuffer d2 det).bufferSize := by omega
  have hvar1 := chanVar_split det d1 c hwf h5
  have hvar2 := chanVar_split det d2 c hwf h52
  rw [hsz] at hvar2
  have hK0 := K_nonneg det d1 c hwf h5
  have h2 : (2:ℚ) ≤ ((addToBuffer d1 det).bufferSize : ℚ) := by
    exact_mod_cast (by omega : 2 ≤ (addToBuffer d1 det).bufferSize)
  have hk1 : (0:ℚ) < ((addToBuffer d1 det).bufferSize : ℚ) - 1 := by linarith
  have hd12 : (chan c d1 - chanMean (addToBuffer d1 det) c)^2
      ≤ (chan c d2 - chanMean (addToBuffer d2 det) c)^2 := by
    have h := pow_le_pow_left (abs_nonneg _) hdev 2
    simpa [sq_abs] using h
  have hvle : chanVar (addToBuffer d1 det) c ≤ chanVar (addToBuffer d2 det) c := by
    rw [hvar1, hvar2]
    have := (div_le_div_right hk1).mpr hd12
    linarith
  have hv1nn : 0 ≤ chanVar (addToBuffer d1 det) c := by
    rw [hvar1]
    positivity
  rw [calculateZScore, calculateZScore]
  by_cases hz1 : chanVar (addToBuffer d1 det) c = 0
  · rw [if_pos hz1]
    simp [abs_nonneg]
  · have hv1pos : 0 < chanVar (addToBuffer d1 det) c :=
      lt_of_le_of_ne hv1nn (Ne.symm hz1)
    have hv2pos : 0 < chanVar (addToBuffer d2 det) c := lt_of_lt_of_le hv1pos hvle
    rw [if_neg hz1, if_neg (ne_of_gt hv2pos)]
    have key : (chan c d1 - chanMean (addToBuffer d1 det) c)^2
          * chanVar (addToBuffer d2 det) c
        ≤ (chan c d2 - chanMean (addToBuffer d2 det) c)^2
          * chanVar (addToBuffer d1 det) c := by
      rw [hvar1, hvar2]
      have hmul := mul_le_mul_of_nonneg_left hd12 hK0
      have e : (chan c d1 - chanMean (addToBuffer d1 det) c)^2
            * ((chan c d2 - chanMean (addToBuffer d2 det) c)^2
              / (((addToBuffer d1 det).bufferSize : ℚ) - 1))
          = (chan c d2 - chanMean (addToBuffer d2 det) c)^2
            * ((chan c d1 - chanMean (addToBuffer d1 det) c)^2
              / (((addToBuffer d1 det).bufferSize : ℚ) - 1)) := by
        ring
      nlinarith [hmul, e]
    have hv1R : (0:ℝ) < ((chanVar (addToBuffer d1 det) c : ℚ) : ℝ) := by
      exact_mod_cast hv1pos
    have hv2R : (0:ℝ) < ((chanVar (addToBuffer d2 det) c : ℚ) : ℝ) := by
      exact_mod_cast hv2pos
    rw [abs_div, abs_div, abs_of_nonneg (Real.sqrt_nonneg _),
      abs_of_nonneg (Real.sqrt_nonneg _),
      div_le_div_iff (Real.sqrt_pos.mpr hv1R) (Real.sqrt_pos.mpr hv2R)]
    apply le_of_pow_le_pow_left (by norm_num : (2:ℕ) ≠ 0)
      (by positivity)
    rw [mul_pow, mul_pow, Real.sq_sqrt hv1R.le, Real.sq_sqrt hv2R.le,
      sq_abs, sq_abs]
    have keyR : (((chan c d1 : ℚ) : ℝ) - ((chanMean (addToBuffer d1 det) c : ℚ) : ℝ))^2
          * ((chanVar (addToBuffer d2 det) c : ℚ) : ℝ)
        ≤ (((chan c d2 : ℚ) : ℝ) - ((chanMean (addToBuffer d2 det) c : ℚ) : ℝ))^2
          * ((chanVar (addToBuffer d1 det) c : ℚ) : ℝ) := by
      have hcast : ((((chan c d1 - chanMean (addToBuffer d1 det) c)^2
            * chanVar (addToBuffer d2 det) c : ℚ)) : ℝ)
          ≤ (((chan c d2 - chanMean (addToBuffer d2 det) c)^2
            * chanVar (addToBuffer d1 det) c : ℚ) : ℝ) := by
        exact_mod_cast key
      push_cast at hcast
      convert hcast using 1
    exact keyR

/-- Channel statistics agree between two detectors whose channel-c values and
fill levels agree. -/
theorem chanStats_congr (A B : Detector) (c : Fin 4)
    (hn : A.bufferSize = B.bufferSize)
    (hv : ∀ i, chan c (A.hist i) = chan c (B.hist i)) :
    chanMean A c = chanMean B c ∧ chanVar A c = chanVar B c := by
  have hsum : chanSum A c = chanSum B c := by
    rw [chanSum, chanSum, hn]
    exact Finset.sum_congr rfl (fun i _ => hv i)
  have hmean : chanMean A c = chanMean B c := by
    rw [chanMean, chanMean, hsum, hn]
  refine ⟨hmean, ?_⟩
  rw [chanVar, chanVar, hn, hmean]
  congr 1
  exact Finset.sum_congr rfl (fun i _ => by rw [hv i])

/-- Z-scores on untouched channels agree after ingesting readings that agree
on that channel. -/
theorem zScore_other_eq (det : Detector) (c : Fin 4) (d1 d2 : SensorData)
    (hch : chan c d1 = chan c d2) :
    calculateZScore (addToBuffer d1 det) c (chan c d1)
      = calculateZScore (addToBuffer d2 det) c (chan c d2) := by
  have hv : ∀ i, chan c ((addToBuffer d1 det).hist i)
      = chan c ((addToBuffer d2 det).hist i) := by
    intro i
    show chan c (Function.update det.hist det.bufferIndex d1 i)
      = chan c (Function.update det.hist det.bufferIndex d2 i)
    by_cases hip : i = det.bufferIndex
    · subst hip
      simp [Function.update_same, hch]
    · simp [Function.update_noteq hip]
  obtain ⟨hmean, hvar⟩ := chanStats_congr (addToBuffer d1 det) (addToBuffer d2 det) c rfl hv
  rw [calculateZScore, calculateZScore, hmean, hvar, hch]

/-- Monotonicity of the combined max-|z| statistic in the deviating channel. -/
theorem maxAbsZ_mono (det : Detector) (c : Fin 4) (d1 d2 : SensorData)
    (hwf : det.WF) (h5 : 5 ≤ (addToBuffer d1 det).bufferSize)
    (hch : ∀ c2 : Fin 4, c2 ≠ c → chan c2 d1 = chan c2 d2)
    (hdev : |chan c d1 - chanMean (addToBuffer d1 det) c|
        ≤ |chan c d2 - chanMean (addToBuffer d2 det) c|) :
    maxAbsZ (addToBuffer d1 det) d1 ≤ maxAbsZ (addToBuffer d2 det) d2 := by
  have hstep : ∀ c2 : Fin 4,
      |calculateZScore (addToBuffer d1 det) c2 (chan c2 d1)|
        ≤ |calculateZScore (addToBuffer d2 det) c2 (chan c2 d2)| := by
    intro c2
    by_cases hc2 : c2 = c
    · subst hc2
      exact absZ_mono det c2 d1 d2 hwf h5 hdev
    · rw [zScore_other_eq det c2 d1 d2 (hch c2 hc2)]
  rw [maxAbsZ, maxAbsZ]
  exact max_le_max (max_le_max (hstep 0) (hstep 1)) (max_le_max (hstep 2) (hstep 3))

/-- C9 (anomaly score: formula, bounds, monotonicity): with enough samples the
score equals `0.5·(1 + tanh(maxAbsZ/√2))` over the post-ingestion window
(per-channel z-scores guarded to 0 at zero variance); the score always lies in
`[0, 1]`; and on a fixed well-formed window, a reading whose absolute
deviation from the rolling mean on one channel is larger (all other channels
unchanged) never gets a smaller anomaly score. -/
theorem anomaly_score_bounds_mono :
    (∀ (det : Detector) (d : SensorData),
      0 ≤ (calculateAnomalyScore det d).1 ∧ (calculateAnomalyScore det d).1 ≤ 1) ∧
    (∀ (det : Detector) (d : SensorData), 5 ≤ (addToBuffer d det).bufferSize →
      (calculateAnomalyScore det d).1
        = (1/2) * (1 + Real.tanh (maxAbsZ (addToBuffer d det) d / Real.sqrt 2))) ∧
    (∀ (det : Detector) (c : Fin 4) (d1 d2 : SensorData), Detector.WF det →
      (∀ c2 : Fin 4, c2 ≠ c → chan c2 d1 = chan c2 d2) →
      |chan c d1 - chanMean (addToBuffer d1 det) c|
        ≤ |chan c d2 - chanMean (addToBuffer d2 det) c| →
      (calculateAnomalyScore det d1).1 ≤ (calculateAnomalyScore det d2).1) := by
  refine ⟨?_, ?_, ?_⟩
  · intro det d
    rw [calculateAnomalyScore]
    split_ifs with hcold
    · norm_num
    · have h1 := tanh_lt_one (maxAbsZ (addToBuffer d det) d / Real.sqrt 2)
      have h2 := neg_one_lt_tanh (maxAbsZ (addToBuffer d det) d / Real.sqrt 2)
      constructor <;> simp only <;> nlinarith
  · intro det d h5
    rw [calculateAnomalyScore, if_neg (by omega)]
  · intro det c d1 d2 hwf hch hdev
    rw [calculateAnomalyScore, calculateAnomalyScore]
    have hsz : (addToBuffer d2 det).bufferSize = (addToBuffer d1 det).bufferSize := rfl
    by_cases hcold : (addToBuffer d1 det).bufferSize < 5
    · rw [if_pos hcold, if_pos (by omega)]
    · rw [if_neg hcold, if_neg (by omega)]
      have hmax := maxAbsZ_mono det c d1 d2 hwf (by omega) hch hdev
      have hdiv : maxAbsZ (addToBuffer d1 det) d1 / Real.sqrt 2
          ≤ maxAbsZ (addToBuffer d2 det) d2 / Real.sqrt 2 :=
        div_le_div_of_nonneg_right hmax (Real.sqrt_nonneg 2)
      have := tanh_mono hdiv
      simp only
      nlinarith

/-- A mildly deviating reading: moisture 430 with the same environment
channels as the outlier. -/
def midReading : SensorData :=
  { moisture := 430, temperature := 25, humidity := 50, lightLevel := 500,
    lastWatered := 0, plantType := 0, growthStage := 1 }

/-- Moisture mean of the window after ingesting the mild reading. -/
theorem detMid_mean0 : chanMean (addToBuffer midReading det23) 0 = 10090 / 24 := by
  rw [chanMean, chanSum,
    show (addToBuffer midReading det23).bufferSize = 24 from rfl]
  simp only [Finset.sum_range_succ, Finset.sum_range_zero]
  norm_num [det23, addToBuffer, Function.update, chan,
    baselineReading, midReading]

/-- Witness for C9: on the concrete 23-sample window of constant moisture 420,
the score-bounds, the formula branch and the monotonicity comparison between a
mild reading (moisture 430) and the outlier (moisture 900) all hold. -/
theorem anomaly_score_bounds_mono_witness :
    (0 ≤ (calculateAnomalyScore det23 outlierReading).1 ∧
      (calculateAnomalyScore det23 outlierReading).1 ≤ 1) ∧
    (5 ≤ (addToBuffer outlierReading det23).bufferSize ∧
      (calculateAnomalyScore det23 outlierReading).1
        = (1/2) * (1 + Real.tanh
            (maxAbsZ (addToBuffer outlierReading det23) outlierReading
              / Real.sqrt 2))) ∧
    (Detector.WF det23 ∧
      (calculateAnomalyScore det23 midReading).1
        ≤ (calculateAnomalyScore det23 outlierReading).1) := by
  refine ⟨anomaly_score_bounds_mono.1 det23 outlierReading,
    ⟨by decide, anomaly_score_bounds_mono.2.1 det23 outlierReading (by decide)⟩,
    ⟨by decide,
      anomaly_score_bounds_mono.2.2 det23 0 midReading outlierReading
        (by decide) ?_ ?_⟩⟩
  · intro c2 hc2
    fin_cases c2
    · exact absurd rfl hc2
    all_goals rfl
  · have h1 : |chan 0 midReading - chanMean (addToBuffer midReading det23) 0|
        = 230 / 24 := by
      rw [detMid_mean0]
      norm_num [chan, midReading]
    have h2 : |chan 0 outlierReading
        - chanMean (addToBuffer outlierReading det23) 0| = 460 := by
      have := det24_mean0
      rw [show chanMean (addToBuffer outlierReading det23) 0
            = chanMean det24 0 from rfl, this]
      norm_num [chan, outlierReading]
    rw [h1, h2]
    norm_num
